import Mathlib

/-!
Verification of the natural-language specification of the MCP-Testing
repository (two Python source files, `app.py` and `unified_app.py`)
against a shallow embedding of its code in Lean 4.

The repository is a terminal chat client: a static tool catalog is sent to
a language model, the model may request one tool call, and a dispatcher
(`get_ai_response` in each file) executes the matching handler.  Handlers
wrap single SDK calls in try/except and render results as strings.

Embedding conventions:
* Remote SDK calls (GitHub, Jira, Confluence, Slack, the Mistral chat
  endpoint, and the local file read in `upload_file`) are parameters of
  the embedded functions: a call either raises (`Except.error`) or
  returns a value (`Except.ok`).  Where a handler body issues a linear
  chain of attribute lookups and calls with no intervening branching
  (for example `gh.get_user()` followed by `user.create_repo(...)`), the
  chain is modelled by a single oracle whose `.error` case covers an
  exception raised at any point of the chain.
* `json.loads` (standard library, out of scope per the spec) is a
  parameter `json_loads` of the dispatcher: it raises or returns the
  decoded argument mapping.
* Python exceptions are modelled by the `Exc` structure: a flag telling
  whether the exception is a `slack_sdk` `SlackApiError`, the `str(e)`
  rendering, and the `e.response` error code used by the Slack handlers.
* A function whose Python counterpart can let an exception escape to its
  caller returns `Except Exc String`; a function that cannot raise
  returns `String`.
-/

/-- Model of a Python exception value: whether it is a `SlackApiError`
from `slack_sdk.errors`, its `str(e)` rendering, and (for Slack errors)
the `e.response` error code the handlers branch on. -/
structure Exc where
  isSlackApiError : Bool
  msg : String
  slackError : String
deriving DecidableEq, Repr

/-- Model of a decoded JSON argument value as produced by `json.loads`
for the payloads this program receives: strings, integers and booleans. -/
inductive PyVal where
  | str (s : String)
  | int (n : Int)
  | bool (b : Bool)
deriving DecidableEq, Repr

/-- An argument mapping: what `json.loads` returns for a JSON object
payload (a Python dict, keys unique in practice). -/
abbrev ArgDict := List (String × PyVal)

/-- Python `try: body except Exception as e: return h(e)` for a body that
returns a string: every exception is caught, so the result is always a
returned string. -/
def pyTryAll (body : Except Exc String) (h : Exc → String) : Except Exc String :=
  match body with
  | .ok s => .ok s
  | .error e => .ok (h e)

/-- Python `try: body except SlackApiError as e: return h(e)`: only a
`SlackApiError` is caught; any other exception propagates to the caller. -/
def pyTrySlack (body : Except Exc String) (h : Exc → String) : Except Exc String :=
  match body with
  | .ok s => .ok s
  | .error e => if e.isSlackApiError then .ok (h e) else .error e

/-- Python `try: body except SlackApiError as e: return hs(e) except
Exception as e: return ha(e)`: both clauses together catch everything. -/
def pyTrySlackAll (body : Except Exc String) (hs : Exc → String) (ha : Exc → String) :
    Except Exc String :=
  match body with
  | .ok s => .ok s
  | .error e => if e.isSlackApiError then .ok (hs e) else .ok (ha e)

/-- Python `x or default` for an optional string attribute: `None` and
the empty string are falsy and replaced by the default. -/
def pyOrStr (x : Option String) (dflt : String) : String :=
  match x with
  | some s => if s = "" then dflt else s
  | none => dflt

/-- Python `s.startswith(p)` (also used for the spec-level notion of a
string beginning with a given text). -/
def pyStartsWith (s p : String) : Bool :=
  p.data.isPrefixOf s.data

/-- Python `s.lower()`, written on the character list so that the kernel
can evaluate it (the command words it is applied to are ASCII). -/
def pyLower (s : String) : String :=
  ⟨s.data.map Char.toLower⟩

/-- Python `s.split(sep, 1)`: split at the first occurrence of `sep`
only; one element when `sep` does not occur, two otherwise. -/
def pySplit1 (s sep : String) : List String :=
  match s.splitOn sep with
  | [] => [s]
  | [a] => [a]
  | a :: rest => [a, String.intercalate sep rest]

/-- Python `s.split()` with no argument: split on whitespace runs,
discarding empty fragments. -/
def pySplitWs (s : String) : List String :=
  (s.split Char.isWhitespace).filter (fun t => t ≠ "")

/-- The exception raised by Python list indexing out of range
(`IndexError`); the exact message is irrelevant to every claim. -/
def indexError : Exc := ⟨false, "list index out of range", ""⟩

/-- Python `l[i]` on a list: the element, or an `IndexError`. -/
def pyIndex {α : Type} (l : List α) (i : Nat) : Except Exc α :=
  match l[i]? with
  | some a => .ok a
  | none => .error indexError

/-- The exception raised by Python `int(s)` on a malformed literal
(`ValueError`); the exact message is irrelevant to every claim. -/
def valueError : Exc := ⟨false, "invalid literal for int()", ""⟩

/-- Python `int(s)`, modelled with `String.toInt?` (the inputs the CLI
loop feeds it are plain decimal literals). -/
def pyInt (s : String) : Except Exc Int :=
  match s.toInt? with
  | some n => .ok n
  | none => .error valueError

/-- Python `os.path.basename` for the slash-separated paths this program
handles: the component after the last slash. -/
def pyBasename (p : String) : String :=
  (p.splitOn "/").getLastD p

/-- Dict lookup in an argument mapping (first binding wins, as in a
Python dict, which cannot hold duplicate keys). -/
def lookupArg (args : ArgDict) (k : String) : Option PyVal :=
  (args.find? (fun p => p.fst = k)).map (fun p => p.snd)

/-- Extraction of a string argument with a default: the default is used
when the key is absent.  Argument values are assumed to carry the type
the catalog schema declares for them, as the dispatcher performs no type
validation of its own. -/
def argStrD (args : ArgDict) (k : String) (dflt : String) : String :=
  match lookupArg args k with
  | some (.str s) => s
  | _ => dflt

/-- Extraction of a required string argument (the keyword check has
already ensured the key is present). -/
def argStr (args : ArgDict) (k : String) : String :=
  argStrD args k ""

/-- Extraction of a boolean argument with a default. -/
def argBoolD (args : ArgDict) (k : String) (dflt : Bool) : Bool :=
  match lookupArg args k with
  | some (.bool b) => b
  | _ => dflt

/-- Extraction of an integer argument with a default. -/
def argIntD (args : ArgDict) (k : String) (dflt : Int) : Int :=
  match lookupArg args k with
  | some (.int n) => n
  | _ => dflt

/-- Validity of a keyword-argument mapping against a Python signature:
calling `f(**args)` succeeds exactly when every no-default parameter is
bound and no key falls outside the declared parameters; otherwise the
call raises `TypeError`. -/
def validKwargs (args : ArgDict) (required optional : List String) : Bool :=
  required.all (fun k => (lookupArg args k).isSome) &&
    args.all (fun p => required.contains p.fst || optional.contains p.fst)

/-- The `TypeError` raised by Python when `f(**args)` does not match the
signature of `f`; the exact CPython message (which names the function and
the offending keyword) is abbreviated, as no claim depends on its text
beyond the dispatcher prefixing it with `Error: `. -/
def kwargsError (fname : String) : Exc :=
  ⟨false, fname ++ "() received keyword arguments that do not match its signature", ""⟩

/-- The `UnboundLocalError` raised in `app.py` when `result` is read
without having been assigned (unknown tool name); its message text varies
across Python versions, and no claim depends on it. -/
def resultNameError : Exc :=
  ⟨false, "local variable \x27result\x27 referenced before assignment", ""⟩

/-- A GitHub repository object, reduced to the attributes the handlers
read: `name`, `description` (nullable) and `html_url`. -/
structure Repo where
  name : String
  description : Option String
  html_url : String
deriving DecidableEq, Repr

/-- A GitHub issue object, reduced to the attributes the handlers read. -/
structure Issue where
  number : Int
  title : String
  html_url : String
deriving DecidableEq, Repr

/-- A Jira issue creation result: the handlers read only `issue[\x27key\x27]`. -/
structure JiraIssue where
  key : String
deriving DecidableEq, Repr

/-- A Jira project record: `project[\x27key\x27]` and the optional
`project.get(\x27name\x27, ...)`. -/
structure JiraProject where
  key : String
  name : Option String
deriving DecidableEq, Repr

/-- A Confluence space record as read by `list_confluence_spaces`. -/
structure ConfSpace where
  key : String
  name : String
deriving DecidableEq, Repr

/-- The response of `confluence.get_all_spaces()`: a dict whose
`results` entry lists the spaces. -/
structure SpacesResp where
  results : List ConfSpace
deriving DecidableEq, Repr

/-- A generic Slack API response: the `ok` flag, the optional `error`
code read by `result.get(\x27error\x27, \x27Unknown error\x27)`, and the payload
entry the handler iterates over (`messages`, `members`, `channels` or
`user`, depending on the call). -/
structure SlackResp (α : Type) where
  ok : Bool
  error : Option String
  data : α
deriving DecidableEq, Repr

/-- A Slack message record: `ts`, optional `user`, and `text`. -/
structure SlackMsg where
  ts : String
  user : Option String
  text : String
deriving DecidableEq, Repr

/-- A Slack user record as listed by `users_list`. -/
structure SlackUser where
  name : String
  id : String
deriving DecidableEq, Repr

/-- A Slack channel record as listed by `conversations_list`. -/
structure SlackChannel where
  name : String
  id : String
deriving DecidableEq, Repr

/-- The user/profile payload of `users_info`, flattened to the five
fields `slack_get_user_profile` renders (each read with a `N/A`
default). -/
structure UserInfo where
  real_name : Option String
  display_name : Option String
  email : Option String
  title : Option String
  status_text : Option String
deriving DecidableEq, Repr

/-- The response of `conversations_open`: the `ok` flag, optional
`error`, and `conversation[\x27channel\x27][\x27id\x27]`. -/
structure ConvOpenResp where
  ok : Bool
  error : Option String
  channel_id : String
deriving DecidableEq, Repr

/-- The response of `chat_postMessage`: the `ok` flag, optional `error`,
and the `ts` of the posted message. -/
structure PostResp where
  ok : Bool
  error : Option String
  ts : String
deriving DecidableEq, Repr

/-- The response of `reactions_add`: the `ok` flag and optional `error`. -/
structure OkResp where
  ok : Bool
  error : Option String
deriving DecidableEq, Repr

/-- A tool call requested by the model: `tool_call.function.name` and the
raw JSON text `tool_call.function.arguments`. -/
structure FunctionCall where
  name : String
  arguments : String
deriving DecidableEq, Repr

/-- The `tool_call` objects of the model response (each wraps a
`function` member). -/
structure ToolCallStruct where
  function : FunctionCall
deriving DecidableEq, Repr

/-- The message part of the model response: `tool_calls` (absent/None or
a list, possibly empty — both falsy cases behave alike in the guard
`hasattr(...) and message.tool_calls`) and the text `content`. -/
structure ChatMessage where
  tool_calls : Option (List ToolCallStruct)
  content : String
deriving DecidableEq, Repr

/-- The model response, reduced to `response.choices[0].message`: the
dispatcher reads nothing else, and the chat endpoint always returns one
choice. -/
structure ChatResponse where
  message : ChatMessage
deriving DecidableEq, Repr

/-- The outcome of one turn of a CLI loop body: the loop breaks, or it
prints a locally computed response (`Except.error` meaning an exception
escaped the local branch and crashes the loop), or it prints the result
of `get_ai_response` (which never raises). -/
inductive Turn where
  | quit
  | localResp (r : Except Exc String)
  | modelResp (s : String)
deriving Repr

/-- The entry of a tool catalog, reduced to the parts the claims are
about: the function `name`, the declared parameter names, and the
`required` list of its JSON schema (empty when the schema omits
`required`). -/
structure ToolDecl where
  name : String
  params : List String
  required : List String
deriving DecidableEq, Repr

namespace App

/-!
Embedding of `app.py`: the GitHub-only client.  Oracle parameters model
the PyGithub calls (and the local file read of `upload_file`).
-/

/-- Handler `create_repository` (app.py lines 131-142).  The oracle
models `gh.get_user()` followed by `user.create_repo(name=..., 
description=..., private=...)`; an exception raised by either step is
the `.error` case. -/
def create_repository (create_repo : String → String → Bool → Except Exc Repo)
    (name : String) (description : String) (private_ : Bool) : Except Exc String :=
  pyTryAll (do
    let repo ← create_repo name description private_
    pure ("Repository created successfully: " ++ repo.html_url))
    (fun e => "Error creating repository: " ++ e.msg)

/-- Handler `create_github_issue` (app.py lines 144-151).  The oracle
models `gh.get_repo(repo_name)` followed by
`repo.create_issue(title=..., body=...)`. -/
def create_github_issue (create_issue : String → String → String → Except Exc Issue)
    (repo_name : String) (title : String) (body : String) : Except Exc String :=
  pyTryAll (do
    let issue ← create_issue repo_name title body
    pure ("Issue created successfully: " ++ issue.html_url))
    (fun e => "Error creating issue: " ++ e.msg)

/-- Handler `list_repository_issues` (app.py lines 153-160).  The oracle
models `gh.get_repo(repo_name)` followed by
`repo.get_issues(state=\x27open\x27)`. -/
def list_repository_issues (get_issues : String → Except Exc (List Issue))
    (repo_name : String) : Except Exc String :=
  pyTryAll (do
    let issues ← get_issues repo_name
    pure (String.intercalate "\n"
      (issues.map (fun issue => "#" ++ toString issue.number ++ ": " ++ issue.title))))
    (fun e => "Error listing issues: " ++ e.msg)

/-- Handler `list_repositories` (app.py lines 162-169).  The oracle
models `gh.get_user(username)` followed by `user.get_repos()`.  The
bullet prefix reproduces the mojibake bytes of the source file. -/
def list_repositories (get_repos : String → Except Exc (List Repo))
    (username : String) : Except Exc String :=
  pyTryAll (do
    let repos ← get_repos username
    pure (String.intercalate "\n"
      (repos.map (fun repo =>
        "â€¢ " ++ repo.name ++ ": " ++ pyOrStr repo.description "No description"))))
    (fun e => "Error listing repositories: " ++ e.msg)

/-- Handler `upload_file` (app.py lines 171-190).  The three oracles
model `gh.get_repo(repo_name)`, the `open(file_path)`/`read()` pair, and
`repo.create_file(path=..., message=..., content=..., branch="main")`. -/
def upload_file (get_repo : String → Except Exc Unit)
    (read_file : String → Except Exc String)
    (create_file : String → String → String → Except Exc Unit)
    (repo_name : String) (file_path : String) (commit_message : String) :
    Except Exc String :=
  pyTryAll (do
    let _ ← get_repo repo_name
    let content ← read_file file_path
    let file_name := pyBasename file_path
    let _ ← create_file file_name commit_message content
    pure ("File " ++ file_name ++ " uploaded successfully to " ++ repo_name))
    (fun e => "Error uploading file: " ++ e.msg)

/-- The remote world of `app.py`: the chat endpoint and the PyGithub and
file-system calls the five handlers issue. -/
structure World where
  chat_complete : String → Except Exc ChatResponse
  create_repo : String → String → Bool → Except Exc Repo
  create_issue : String → String → String → Except Exc Issue
  get_issues : String → Except Exc (List Issue)
  get_repos : String → Except Exc (List Repo)
  get_repo : String → Except Exc Unit
  read_file : String → Except Exc String
  create_file : String → String → String → Except Exc Unit

/-- Parameters of `create_repository` that carry no default in the
Python signature. -/
def create_repository_req : List String := ["name"]

/-- Parameters of `create_repository` that carry a default. -/
def create_repository_opt : List String := ["description", "private"]

/-- Parameters of `list_repositories` that carry no default. -/
def list_repositories_req : List String := ["username"]

/-- Parameters of `create_github_issue` that carry no default. -/
def create_github_issue_req : List String := ["repo_name", "title", "body"]

/-- Parameters of `list_repository_issues` that carry no default. -/
def list_repository_issues_req : List String := ["repo_name"]

/-- Parameters of `upload_file` that carry no default. -/
def upload_file_req : List String := ["repo_name", "file_path"]

/-- Parameters of `upload_file` that carry a default. -/
def upload_file_opt : List String := ["commit_message"]

/-- Call `create_repository(**function_args)`: keyword binding against
the Python signature `(name, description="", private=False)`, raising
`TypeError` on a mismatch. -/
def call_create_repository (w : World) (args : ArgDict) : Except Exc String :=
  if validKwargs args create_repository_req create_repository_opt then
    create_repository w.create_repo (argStr args "name")
      (argStrD args "description" "") (argBoolD args "private" false)
  else .error (kwargsError "create_repository")

/-- Call `list_repositories(**function_args)` against the signature
`(username)`. -/
def call_list_repositories (w : World) (args : ArgDict) : Except Exc String :=
  if validKwargs args list_repositories_req [] then
    list_repositories w.get_repos (argStr args "username")
  else .error (kwargsError "list_repositories")

/-- Call `create_github_issue(**function_args)` against the signature
`(repo_name, title, body)`. -/
def call_create_github_issue (w : World) (args : ArgDict) : Except Exc String :=
  if validKwargs args create_github_issue_req [] then
    create_github_issue w.create_issue (argStr args "repo_name")
      (argStr args "title") (argStr args "body")
  else .error (kwargsError "create_github_issue")

/-- Call `list_repository_issues(**function_args)` against the signature
`(repo_name)`. -/
def call_list_repository_issues (w : World) (args : ArgDict) : Except Exc String :=
  if validKwargs args list_repository_issues_req [] then
    list_repository_issues w.get_issues (argStr args "repo_name")
  else .error (kwargsError "list_repository_issues")

/-- Call `upload_file(**function_args)` against the signature
`(repo_name, file_path, commit_message="Add Python script")`. -/
def call_upload_file (w : World) (args : ArgDict) : Except Exc String :=
  if validKwargs args upload_file_req upload_file_opt then
    upload_file w.get_repo w.read_file w.create_file (argStr args "repo_name")
      (argStr args "file_path") (argStrD args "commit_message" "Add Python script")
  else .error (kwargsError "upload_file")

/-- The names tested by the `if/elif` chain of `get_ai_response`
(app.py lines 212-221), in source order. -/
def branchNames : List String :=
  ["upload_file", "create_repository", "list_repositories",
   "create_github_issue", "list_repository_issues"]

/-- The tool-call path of `get_ai_response` (app.py lines 205-224):
parse the argument payload, run the `if/elif` chain assigning `result`,
then execute `print("Function result:", result)` and `return result` —
which raises `UnboundLocalError` when no branch assigned `result`. -/
def execToolCall (w : World) (json_loads : String → Except Exc ArgDict)
    (tool_call : ToolCallStruct) : Except Exc String := do
  let function_args ← json_loads tool_call.function.arguments
  let result : Option String ←
    if tool_call.function.name = "upload_file" then
      Option.some <$> call_upload_file w function_args
    else if tool_call.function.name = "create_repository" then
      Option.some <$> call_create_repository w function_args
    else if tool_call.function.name = "list_repositories" then
      Option.some <$> call_list_repositories w function_args
    else if tool_call.function.name = "create_github_issue" then
      Option.some <$> call_create_github_issue w function_args
    else if tool_call.function.name = "list_repository_issues" then
      Option.some <$> call_list_repository_issues w function_args
    else pure none
  match result with
  | some r => pure r
  | none => Except.error resultNameError

/-- The body of the outer `try` of `get_ai_response` (app.py lines
193-226): call the chat endpoint, dispatch the first tool call when the
message carries a non-empty `tool_calls` list, and fall back to the
message text otherwise. -/
def dispatchBody (w : World) (json_loads : String → Except Exc ArgDict)
    (prompt : String) : Except Exc String := do
  let response ← w.chat_complete prompt
  match response.message.tool_calls with
  | some (tool_call :: _) => execToolCall w json_loads tool_call
  | _ => pure response.message.content

/-- Dispatcher `get_ai_response` (app.py lines 192-229): the whole body
sits in `try: ... except Exception as e: return f"Error: ..."`, so the
function always returns a string. -/
def get_ai_response (w : World) (json_loads : String → Except Exc ArgDict)
    (prompt : String) : String :=
  match dispatchBody w json_loads prompt with
  | .ok s => s
  | .error e => "Error: " ++ e.msg

/-- One iteration of the `main` loop of app.py (lines 235-250): break on
a quit token, otherwise print the model response. -/
def mainTurn (w : World) (json_loads : String → Except Exc ArgDict)
    (user_input : String) : Turn :=
  if pyLower user_input ∈ (["quit", "exit", "q"] : List String) then .quit
  else .modelResp (get_ai_response w json_loads user_input)

/-- The static tool catalog of app.py (lines 19-129): name, declared
parameters, and the `required` list of each schema. -/
def toolsCatalog : List ToolDecl :=
  [⟨"create_repository", ["name", "description", "private"], ["name"]⟩,
   ⟨"list_repositories", ["username"], ["username"]⟩,
   ⟨"create_github_issue", ["repo_name", "title", "body"], ["repo_name", "title", "body"]⟩,
   ⟨"list_repository_issues", ["repo_name"], ["repo_name"]⟩,
   ⟨"upload_file", ["repo_name", "file_path", "commit_message"], ["repo_name", "file_path"]⟩]

/-- The no-default parameters of the handler a dispatcher branch calls,
by branch name (transcribed from the Python signatures at app.py lines
131, 144, 153, 162, 171). -/
def handlerRequired (n : String) : List String :=
  if n = "create_repository" then create_repository_req
  else if n = "list_repositories" then list_repositories_req
  else if n = "create_github_issue" then create_github_issue_req
  else if n = "list_repository_issues" then list_repository_issues_req
  else if n = "upload_file" then upload_file_req
  else []

/-- The keyword-validity test the dispatch branch for `n` applies to the
decoded arguments before the handler body runs (always true for a name
with no branch). -/
def argCheckOf (n : String) (args : ArgDict) : Bool :=
  if n = "upload_file" then validKwargs args upload_file_req upload_file_opt
  else if n = "create_repository" then
    validKwargs args create_repository_req create_repository_opt
  else if n = "list_repositories" then validKwargs args list_repositories_req []
  else if n = "create_github_issue" then validKwargs args create_github_issue_req []
  else if n = "list_repository_issues" then validKwargs args list_repository_issues_req []
  else true

end App

namespace Unified

/-!
Embedding of `unified_app.py`: the GitHub + Jira + Confluence + Slack
client.
-/

/-- Handler `create_repository` (unified_app.py lines 351-357).  The
oracle models `gh.get_user()` followed by `user.create_repo(...)`. -/
def create_repository (create_repo : String → String → Bool → Except Exc Repo)
    (name : String) (description : String) (private_ : Bool) : Except Exc String :=
  pyTryAll (do
    let repo ← create_repo name description private_
    pure ("Repository created: " ++ repo.html_url))
    (fun e => "Error: " ++ e.msg)

/-- Handler `list_repositories` (unified_app.py lines 359-365).  The
oracle models `gh.get_user(username)` followed by `user.get_repos()`. -/
def list_repositories (get_repos : String → Except Exc (List Repo))
    (username : String) : Except Exc String :=
  pyTryAll (do
    let repos ← get_repos username
    pure (String.intercalate "\n"
      (repos.map (fun repo =>
        "• " ++ repo.name ++ ": " ++ pyOrStr repo.description "No description"))))
    (fun e => "Error: " ++ e.msg)

/-- Handler `create_jira_issue` (unified_app.py lines 368-380).  The
oracle models `jira.create_issue(fields=...)`. -/
def create_jira_issue
    (jira_create_issue : String → String → String → String → Except Exc JiraIssue)
    (project_key : String) (summary : String) (description : String)
    (issue_type : String) : Except Exc String :=
  pyTryAll (do
    let issue ← jira_create_issue project_key summary description issue_type
    pure ("Issue created: " ++ issue.key))
    (fun e => "Error: " ++ e.msg)

/-- Handler `list_jira_projects` (unified_app.py lines 382-387). -/
def list_jira_projects (jira_projects : Except Exc (List JiraProject)) :
    Except Exc String :=
  pyTryAll (do
    let projects ← jira_projects
    pure (String.intercalate "\n"
      (projects.map (fun project =>
        "• " ++ project.key ++ ": " ++ project.name.getD "No name"))))
    (fun e => "Error: " ++ e.msg)

/-- Handler `create_confluence_page` (unified_app.py lines 390-400); the
page object the call returns is unused. -/
def create_confluence_page
    (confluence_create_page : String → String → String → Except Exc Unit)
    (space_key : String) (title : String) (content : String) : Except Exc String :=
  pyTryAll (do
    let _ ← confluence_create_page space_key title content
    pure ("Page created in space " ++ space_key))
    (fun e => "Error: " ++ e.msg)

/-- Handler `list_confluence_spaces` (unified_app.py lines 402-407). -/
def list_confluence_spaces (get_all_spaces : Except Exc SpacesResp) :
    Except Exc String :=
  pyTryAll (do
    let spaces ← get_all_spaces
    pure (String.intercalate "\n"
      (spaces.results.map (fun space => "• " ++ space.key ++ ": " ++ space.name))))
    (fun e => "Error: " ++ e.msg)

/-- Handler `send_slack_message` (unified_app.py lines 410-444).  The
Python early `return` in the failed `conversations_open` case is
modelled with a `Sum`: `inl` carries the early error string, `inr` the
channel id the message is then posted to.  Both a `SlackApiError` clause
(with its three-way branch on the error code) and a catch-all clause are
present. -/
def send_slack_message (conversations_open : String → Except Exc ConvOpenResp)
    (chat_postMessage : String → String → Except Exc PostResp)
    (channel : String) (text : String) : Except Exc String :=
  pyTrySlackAll (do
    let step : Sum String String ←
      if pyStartsWith channel "D" then do
        let conversation ← conversations_open channel
        if conversation.ok then pure (Sum.inr conversation.channel_id)
        else pure (Sum.inl
          ("Error opening conversation: " ++ conversation.error.getD "Unknown error"))
      else pure (Sum.inr channel)
    match step with
    | Sum.inl early => pure early
    | Sum.inr channel_id => do
      let response ← chat_postMessage channel_id text
      if response.ok then pure "Message sent successfully"
      else pure ("Error sending message: " ++ response.error.getD "Unknown error"))
    (fun e =>
      if e.slackError = "channel_not_found" then
        "Error: Channel or user not found. Please check the channel ID or user ID."
      else if e.slackError = "not_in_channel" then
        "Error: Bot is not in this channel. Please add the bot to the channel first."
      else "Slack API Error: " ++ e.slackError)
    (fun e => "Error: " ++ e.msg)

/-- Handler `upload_file_to_slack` (unified_app.py lines 446-455): only
`SlackApiError` is caught; any other exception propagates. -/
def upload_file_to_slack (files_upload : String → String → Except Exc Unit)
    (channels : String) (filepath : String) : Except Exc String :=
  pyTrySlack (do
    let _ ← files_upload channels filepath
    pure ("File uploaded to " ++ channels))
    (fun e => "Error: " ++ e.msg)

/-- Rendering of one Slack message record, shared verbatim by
`slack_get_thread_replies` (line 465) and `slack_get_channel_history`
(line 572). -/
def formatSlackMsg (m : SlackMsg) : String :=
  "[" ++ m.ts ++ "] " ++ m.user.getD "Unknown" ++ ": " ++ m.text

/-- Handler `slack_get_thread_replies` (unified_app.py lines 457-470):
only `SlackApiError` is caught. -/
def slack_get_thread_replies
    (conversations_replies : String → String → Except Exc (SlackResp (List SlackMsg)))
    (channel_id : String) (thread_ts : String) : Except Exc String :=
  pyTrySlack (do
    let result ← conversations_replies channel_id thread_ts
    if result.ok then
      pure (String.intercalate "\n" (result.data.map formatSlackMsg))
    else pure ("Error getting replies: " ++ result.error.getD "Unknown error"))
    (fun e => "Error: " ++ e.msg)

/-- Handler `slack_get_users` (unified_app.py lines 472-481): the limit
forwarded to `users_list` is `min(limit, 200)`; only `SlackApiError` is
caught. -/
def slack_get_users (users_list : Int → Except Exc (SlackResp (List SlackUser)))
    (limit : Int) : Except Exc String :=
  pyTrySlack (do
    let result ← users_list (min limit 200)
    if result.ok then
      pure (String.intercalate "\n"
        (result.data.map (fun u => "• " ++ u.name ++ " (" ++ u.id ++ ")")))
    else pure ("Error listing users: " ++ result.error.getD "Unknown error"))
    (fun e => "Error: " ++ e.msg)

/-- Handler `slack_get_user_profile` (unified_app.py lines 483-498):
only `SlackApiError` is caught. -/
def slack_get_user_profile (users_info : String → Except Exc (SlackResp UserInfo))
    (user_id : String) : Except Exc String :=
  pyTrySlack (do
    let result ← users_info user_id
    if result.ok then
      pure ("User Profile:\n• Name: " ++ result.data.real_name.getD "N/A"
        ++ "\n• Display Name: " ++ result.data.display_name.getD "N/A"
        ++ "\n• Email: " ++ result.data.email.getD "N/A"
        ++ "\n• Title: " ++ result.data.title.getD "N/A"
        ++ "\n• Status: " ++ result.data.status_text.getD "N/A")
    else pure ("Error getting profile: " ++ result.error.getD "Unknown error"))
    (fun e => "Error: " ++ e.msg)

/-- Handler `slack_list_channels` (unified_app.py lines 500-509): the
limit forwarded to `conversations_list` is `min(limit, 200)`; only
`SlackApiError` is caught. -/
def slack_list_channels
    (conversations_list : Int → Except Exc (SlackResp (List SlackChannel)))
    (limit : Int) : Except Exc String :=
  pyTrySlack (do
    let result ← conversations_list (min limit 200)
    if result.ok then
      pure (String.intercalate "\n"
        (result.data.map (fun c => "• " ++ c.name ++ " (" ++ c.id ++ ")")))
    else pure ("Error listing channels: " ++ result.error.getD "Unknown error"))
    (fun e => "Error: " ++ e.msg)

/-- Handler `slack_post_message` (unified_app.py lines 511-534): a
channel id not starting with `C` has leading `#` characters stripped;
the `SlackApiError` clause branches on the error code (`not_in_channel`
first), and a catch-all clause follows. -/
def slack_post_message (chat_postMessage : String → String → Except Exc PostResp)
    (channel_id : String) (text : String) : Except Exc String :=
  pyTrySlackAll (do
    let channel_id2 :=
      if pyStartsWith channel_id "C" then channel_id
      else channel_id.dropWhile (fun c => c = '#')
    let result ← chat_postMessage channel_id2 text
    if result.ok then
      pure ("Message posted successfully (ts: " ++ result.ts ++ ")")
    else pure ("Error posting message: " ++ result.error.getD "Unknown error"))
    (fun e =>
      if e.slackError = "not_in_channel" then
        "Error: Bot is not in this channel. Please add the bot using \x27/invite @your_bot_name\x27"
      else if e.slackError = "channel_not_found" then
        "Error: Channel not found. Please check the channel name."
      else "Slack API Error: " ++ e.slackError)
    (fun e => "Error: " ++ e.msg)

/-- Handler `slack_reply_to_thread` (unified_app.py lines 536-548): only
`SlackApiError` is caught. -/
def slack_reply_to_thread
    (chat_postMessage_thread : String → String → String → Except Exc PostResp)
    (channel_id : String) (thread_ts : String) (text : String) : Except Exc String :=
  pyTrySlack (do
    let result ← chat_postMessage_thread channel_id thread_ts text
    if result.ok then
      pure ("Reply posted successfully (ts: " ++ result.ts ++ ")")
    else pure ("Error posting reply: " ++ result.error.getD "Unknown error"))
    (fun e => "Error: " ++ e.msg)

/-- Handler `slack_add_reaction` (unified_app.py lines 550-562): only
`SlackApiError` is caught. -/
def slack_add_reaction (reactions_add : String → String → String → Except Exc OkResp)
    (channel_id : String) (timestamp : String) (reaction : String) : Except Exc String :=
  pyTrySlack (do
    let result ← reactions_add channel_id timestamp reaction
    if result.ok then
      pure ("Reaction \x27" ++ reaction ++ "\x27 added successfully")
    else pure ("Error adding reaction: " ++ result.error.getD "Unknown error"))
    (fun e => "Error: " ++ e.msg)

/-- Handler `slack_get_channel_history` (unified_app.py lines 564-577):
the limit is forwarded to `conversations_history` unclamped; only
`SlackApiError` is caught. -/
def slack_get_channel_history
    (conversations_history : String → Int → Except Exc (SlackResp (List SlackMsg)))
    (channel_id : String) (limit : Int) : Except Exc String :=
  pyTrySlack (do
    let result ← conversations_history channel_id limit
    if result.ok then
      pure (String.intercalate "\n" (result.data.map formatSlackMsg))
    else pure ("Error getting history: " ++ result.error.getD "Unknown error"))
    (fun e => "Error: " ++ e.msg)

/-- The remote world of `unified_app.py`: the chat endpoint and every
SDK call the sixteen handlers issue.  `chat_postMessage` takes the
optional `thread_ts` so that one field covers its three call sites. -/
structure World where
  chat_complete : String → Except Exc ChatResponse
  create_repo : String → String → Bool → Except Exc Repo
  get_repos : String → Except Exc (List Repo)
  jira_create_issue : String → String → String → String → Except Exc JiraIssue
  jira_projects : Except Exc (List JiraProject)
  confluence_create_page : String → String → String → Except Exc Unit
  confluence_get_all_spaces : Except Exc SpacesResp
  conversations_open : String → Except Exc ConvOpenResp
  chat_postMessage : String → Option String → String → Except Exc PostResp
  files_upload : String → String → Except Exc Unit
  conversations_replies : String → String → Except Exc (SlackResp (List SlackMsg))
  users_list : Int → Except Exc (SlackResp (List SlackUser))
  users_info : String → Except Exc (SlackResp UserInfo)
  conversations_list : Int → Except Exc (SlackResp (List SlackChannel))
  reactions_add : String → String → String → Except Exc OkResp
  conversations_history : String → Int → Except Exc (SlackResp (List SlackMsg))

end Unified

namespace Unified

/-- Parameters of `create_repository` without a default. -/
def create_repository_req : List String := ["name"]

/-- Parameters of `create_repository` with a default. -/
def create_repository_opt : List String := ["description", "private"]

/-- Parameters of `list_repositories` without a default. -/
def list_repositories_req : List String := ["username"]

/-- Parameters of `create_jira_issue` without a default. -/
def create_jira_issue_req : List String := ["project_key", "summary"]

/-- Parameters of `create_jira_issue` with a default. -/
def create_jira_issue_opt : List String := ["description", "issue_type"]

/-- Parameters of `create_confluence_page` without a default. -/
def create_confluence_page_req : List String := ["space_key", "title", "content"]

/-- Parameters of `send_slack_message` without a default. -/
def send_slack_message_req : List String := ["channel", "text"]

/-- Parameters of `upload_file_to_slack` without a default. -/
def upload_file_to_slack_req : List String := ["channels", "filepath"]

/-- Parameters of `slack_get_thread_replies` without a default. -/
def slack_get_thread_replies_req : List String := ["channel_id", "thread_ts"]

/-- Parameters of `slack_get_users` with a default. -/
def slack_get_users_opt : List String := ["limit"]

/-- Parameters of `slack_get_user_profile` without a default. -/
def slack_get_user_profile_req : List String := ["user_id"]

/-- Parameters of `slack_list_channels` with a default. -/
def slack_list_channels_opt : List String := ["limit"]

/-- Parameters of `slack_post_message` without a default. -/
def slack_post_message_req : List String := ["channel_id", "text"]

/-- Parameters of `slack_reply_to_thread` without a default. -/
def slack_reply_to_thread_req : List String := ["channel_id", "thread_ts", "text"]

/-- Parameters of `slack_add_reaction` without a default. -/
def slack_add_reaction_req : List String := ["channel_id", "timestamp", "reaction"]

/-- Parameters of `slack_get_channel_history` without a default. -/
def slack_get_channel_history_req : List String := ["channel_id"]

/-- Parameters of `slack_get_channel_history` with a default. -/
def slack_get_channel_history_opt : List String := ["limit"]

/-- Call `create_repository(**function_args)` against the signature
`(name, description="", private=False)`. -/
def call_create_repository (w : World) (args : ArgDict) : Except Exc String :=
  if validKwargs args create_repository_req create_repository_opt then
    create_repository w.create_repo (argStr args "name")
      (argStrD args "description" "") (argBoolD args "private" false)
  else .error (kwargsError "create_repository")

/-- Call `list_repositories(**function_args)` against `(username)`. -/
def call_list_repositories (w : World) (args : ArgDict) : Except Exc String :=
  if validKwargs args list_repositories_req [] then
    list_repositories w.get_repos (argStr args "username")
  else .error (kwargsError "list_repositories")

/-- Call `create_jira_issue(**function_args)` against
`(project_key, summary, description="", issue_type="Task")`. -/
def call_create_jira_issue (w : World) (args : ArgDict) : Except Exc String :=
  if validKwargs args create_jira_issue_req create_jira_issue_opt then
    create_jira_issue w.jira_create_issue (argStr args "project_key")
      (argStr args "summary") (argStrD args "description" "")
      (argStrD args "issue_type" "Task")
  else .error (kwargsError "create_jira_issue")

/-- Call `create_confluence_page(**function_args)` against
`(space_key, title, content)`. -/
def call_create_confluence_page (w : World) (args : ArgDict) : Except Exc String :=
  if validKwargs args create_confluence_page_req [] then
    create_confluence_page w.confluence_create_page (argStr args "space_key")
      (argStr args "title") (argStr args "content")
  else .error (kwargsError "create_confluence_page")

/-- Call `send_slack_message(**function_args)` against `(channel, text)`. -/
def call_send_slack_message (w : World) (args : ArgDict) : Except Exc String :=
  if validKwargs args send_slack_message_req [] then
    send_slack_message w.conversations_open
      (fun c t => w.chat_postMessage c none t)
      (argStr args "channel") (argStr args "text")
  else .error (kwargsError "send_slack_message")

/-- Call `upload_file_to_slack(**function_args)` against
`(channels, filepath)`. -/
def call_upload_file_to_slack (w : World) (args : ArgDict) : Except Exc String :=
  if validKwargs args upload_file_to_slack_req [] then
    upload_file_to_slack w.files_upload (argStr args "channels")
      (argStr args "filepath")
  else .error (kwargsError "upload_file_to_slack")

/-- Call `slack_get_thread_replies(**function_args)` against
`(channel_id, thread_ts)`. -/
def call_slack_get_thread_replies (w : World) (args : ArgDict) : Except Exc String :=
  if validKwargs args slack_get_thread_replies_req [] then
    slack_get_thread_replies w.conversations_replies (argStr args "channel_id")
      (argStr args "thread_ts")
  else .error (kwargsError "slack_get_thread_replies")

/-- Call `slack_get_users(**function_args)` against `(limit=100)`. -/
def call_slack_get_users (w : World) (args : ArgDict) : Except Exc String :=
  if validKwargs args [] slack_get_users_opt then
    slack_get_users w.users_list (argIntD args "limit" 100)
  else .error (kwargsError "slack_get_users")

/-- Call `slack_get_user_profile(**function_args)` against `(user_id)`. -/
def call_slack_get_user_profile (w : World) (args : ArgDict) : Except Exc String :=
  if validKwargs args slack_get_user_profile_req [] then
    slack_get_user_profile w.users_info (argStr args "user_id")
  else .error (kwargsError "slack_get_user_profile")

/-- Call `slack_list_channels(**function_args)` against `(limit=100)`. -/
def call_slack_list_channels (w : World) (args : ArgDict) : Except Exc String :=
  if validKwargs args [] slack_list_channels_opt then
    slack_list_channels w.conversations_list (argIntD args "limit" 100)
  else .error (kwargsError "slack_list_channels")

/-- Call `slack_post_message(**function_args)` against
`(channel_id, text)`. -/
def call_slack_post_message (w : World) (args : ArgDict) : Except Exc String :=
  if validKwargs args slack_post_message_req [] then
    slack_post_message (fun c t => w.chat_postMessage c none t)
      (argStr args "channel_id") (argStr args "text")
  else .error (kwargsError "slack_post_message")

/-- Call `slack_reply_to_thread(**function_args)` against
`(channel_id, thread_ts, text)`. -/
def call_slack_reply_to_thread (w : World) (args : ArgDict) : Except Exc String :=
  if validKwargs args slack_reply_to_thread_req [] then
    slack_reply_to_thread (fun c th t => w.chat_postMessage c (some th) t)
      (argStr args "channel_id") (argStr args "thread_ts") (argStr args "text")
  else .error (kwargsError "slack_reply_to_thread")

/-- Call `slack_add_reaction(**function_args)` against
`(channel_id, timestamp, reaction)`. -/
def call_slack_add_reaction (w : World) (args : ArgDict) : Except Exc String :=
  if validKwargs args slack_add_reaction_req [] then
    slack_add_reaction w.reactions_add (argStr args "channel_id")
      (argStr args "timestamp") (argStr args "reaction")
  else .error (kwargsError "slack_add_reaction")

/-- Call `slack_get_channel_history(**function_args)` against
`(channel_id, limit=10)`. -/
def call_slack_get_channel_history (w : World) (args : ArgDict) : Except Exc String :=
  if validKwargs args slack_get_channel_history_req slack_get_channel_history_opt then
    slack_get_channel_history w.conversations_history (argStr args "channel_id")
      (argIntD args "limit" 10)
  else .error (kwargsError "slack_get_channel_history")

/-- The names tested by the `if/elif` chain of `get_ai_response`
(unified_app.py lines 594-625), in source order. -/
def branchNames : List String :=
  ["create_repository", "list_repositories", "create_jira_issue",
   "list_jira_projects", "create_confluence_page", "list_confluence_spaces",
   "send_slack_message", "upload_file_to_slack", "slack_get_thread_replies",
   "slack_get_users", "slack_get_user_profile", "slack_list_channels",
   "slack_post_message", "slack_reply_to_thread", "slack_add_reaction",
   "slack_get_channel_history"]

/-- The tool-call path of `get_ai_response` (unified_app.py lines
589-627): parse the argument payload, then run the `if/elif` chain; a
name matching no branch falls through to `return
response.choices[0].message.content`.  The two no-parameter handlers are
called with empty argument lists, ignoring `function_args`, exactly as
the source does. -/
def execToolCall (w : World) (json_loads : String → Except Exc ArgDict)
    (tool_call : ToolCallStruct) (content : String) : Except Exc String := do
  let function_args ← json_loads tool_call.function.arguments
  let fn := tool_call.function.name
  if fn = "create_repository" then call_create_repository w function_args
  else if fn = "list_repositories" then call_list_repositories w function_args
  else if fn = "create_jira_issue" then call_create_jira_issue w function_args
  else if fn = "list_jira_projects" then list_jira_projects w.jira_projects
  else if fn = "create_confluence_page" then call_create_confluence_page w function_args
  else if fn = "list_confluence_spaces" then
    list_confluence_spaces w.confluence_get_all_spaces
  else if fn = "send_slack_message" then call_send_slack_message w function_args
  else if fn = "upload_file_to_slack" then call_upload_file_to_slack w function_args
  else if fn = "slack_get_thread_replies" then
    call_slack_get_thread_replies w function_args
  else if fn = "slack_get_users" then call_slack_get_users w function_args
  else if fn = "slack_get_user_profile" then call_slack_get_user_profile w function_args
  else if fn = "slack_list_channels" then call_slack_list_channels w function_args
  else if fn = "slack_post_message" then call_slack_post_message w function_args
  else if fn = "slack_reply_to_thread" then call_slack_reply_to_thread w function_args
  else if fn = "slack_add_reaction" then call_slack_add_reaction w function_args
  else if fn = "slack_get_channel_history" then
    call_slack_get_channel_history w function_args
  else pure content

/-- The body of the outer `try` of `get_ai_response` (unified_app.py
lines 580-627). -/
def dispatchBody (w : World) (json_loads : String → Except Exc ArgDict)
    (prompt : String) : Except Exc String := do
  let response ← w.chat_complete prompt
  match response.message.tool_calls with
  | some (tool_call :: _) => execToolCall w json_loads tool_call response.message.content
  | _ => pure response.message.content

/-- Dispatcher `get_ai_response` (unified_app.py lines 579-629): the
outer `try/except Exception` turns every escaped exception into the
returned string `Error: <message>`. -/
def get_ai_response (w : World) (json_loads : String → Except Exc ArgDict)
    (prompt : String) : String :=
  match dispatchBody w json_loads prompt with
  | .ok s => s
  | .error e => "Error: " ++ e.msg

/-- A world whose chat endpoint answers every prompt with the given
message (used to state how the dispatcher treats a fixed response). -/
def withResponse (w : World) (m : ChatMessage) : World :=
  { w with chat_complete := fun _ => .ok ⟨m⟩ }

/-- The `send message` branch of the `main` loop (unified_app.py lines
653-660): no try/except, so an exception escaping `slack_post_message`
crashes the loop. -/
def sendMessageBranch (w : World) (user_input : String) : Except Exc String :=
  let parts := pySplit1 user_input " to "
  if parts.length = 2 then
    let message := ((parts.getD 0 "").replace "send message" "").trim
    let channel := (parts.getD 1 "").trim
    slack_post_message (fun c t => w.chat_postMessage c none t) channel message
  else .ok "Please use format: send message <text> to <channel>"

/-- The `reply` branch of the `main` loop (unified_app.py lines
661-670): the bare `except:` catches every exception raised by the
parsing or by the handler call. -/
def replyBranch (w : World) (user_input : String) : String :=
  match (do
    let second ← pyIndex (pySplit1 user_input " to thread ") 1
    let parts := second.splitOn " in "
    let first ← pyIndex parts 0
    let thread_ts := first.trim
    let chanPart ← pyIndex parts 1
    let channel := chanPart.trim
    let text := (((user_input.splitOn " to thread ").getD 0 "").replace "reply" "").trim
    slack_reply_to_thread (fun c th t => w.chat_postMessage c (some th) t)
      channel thread_ts text) with
  | .ok r => r
  | .error _ => "Please use format: reply <text> to thread <thread_ts> in <channel>"

/-- The `add reaction` branch of the `main` loop (unified_app.py lines
671-680): the bare `except:` catches everything. -/
def addReactionBranch (w : World) (user_input : String) : String :=
  match (do
    let second ← pyIndex (pySplit1 user_input " to message ") 1
    let parts := second.splitOn " in "
    let first ← pyIndex parts 0
    let ts := first.trim
    let chanPart ← pyIndex parts 1
    let channel := chanPart.trim
    let reaction :=
      (((user_input.splitOn " to message ").getD 0 "").replace "add reaction" "").trim
    slack_add_reaction w.reactions_add channel ts reaction) with
  | .ok r => r
  | .error _ => "Please use format: add reaction <emoji> to message <ts> in <channel>"

/-- The `show history` branch of the `main` loop (unified_app.py lines
681-688): the bare `except:` catches everything. -/
def showHistoryBranch (w : World) (user_input : String) : String :=
  match (do
    let parts := pySplitWs ((user_input.replace "show history" "").trim)
    let channel ← pyIndex parts 0
    let limit ← if parts.length > 1 then pyInt (parts.getD 1 "") else pure 10
    slack_get_channel_history w.conversations_history channel limit) with
  | .ok r => r
  | .error _ => "Please use format: show history <channel> [limit]"

/-- One iteration of the `main` loop of unified_app.py (lines 643-692):
break on a quit token; recognise the five local Slack shortcuts on the
lowercased input, computing their responses without touching the chat
endpoint; forward anything else to `get_ai_response`. -/
def mainTurn (w : World) (json_loads : String → Except Exc ArgDict)
    (user_input : String) : Turn :=
  if pyLower user_input ∈ (["quit", "exit", "q"] : List String) then .quit
  else if pyLower user_input = "list channels" then
    .localResp (slack_list_channels w.conversations_list 100)
  else if pyStartsWith (pyLower user_input) "send message" then
    .localResp (sendMessageBranch w user_input)
  else if pyStartsWith (pyLower user_input) "reply" then
    .localResp (.ok (replyBranch w user_input))
  else if pyStartsWith (pyLower user_input) "add reaction" then
    .localResp (.ok (addReactionBranch w user_input))
  else if pyStartsWith (pyLower user_input) "show history" then
    .localResp (.ok (showHistoryBranch w user_input))
  else .modelResp (get_ai_response w json_loads user_input)

/-- The static tool catalog of unified_app.py (lines 51-348): name,
declared parameters, and the `required` list of each schema (empty when
the schema omits `required`). -/
def toolsCatalog : List ToolDecl :=
  [⟨"create_repository", ["name", "description", "private"], ["name"]⟩,
   ⟨"list_repositories", ["username"], ["username"]⟩,
   ⟨"create_jira_issue", ["project_key", "summary", "description", "issue_type"],
     ["project_key", "summary"]⟩,
   ⟨"list_jira_projects", [], []⟩,
   ⟨"create_confluence_page", ["space_key", "title", "content"],
     ["space_key", "title", "content"]⟩,
   ⟨"list_confluence_spaces", [], []⟩,
   ⟨"send_slack_message", ["channel", "text"], ["channel", "text"]⟩,
   ⟨"upload_file_to_slack", ["channels", "filepath"], ["channels", "filepath"]⟩,
   ⟨"slack_get_thread_replies", ["channel_id", "thread_ts"],
     ["channel_id", "thread_ts"]⟩,
   ⟨"slack_get_users", ["limit"], []⟩,
   ⟨"slack_get_user_profile", ["user_id"], ["user_id"]⟩,
   ⟨"slack_list_channels", ["limit"], []⟩,
   ⟨"slack_post_message", ["channel_id", "text"], ["channel_id", "text"]⟩,
   ⟨"slack_reply_to_thread", ["channel_id", "thread_ts", "text"],
     ["channel_id", "thread_ts", "text"]⟩,
   ⟨"slack_add_reaction", ["channel_id", "timestamp", "reaction"],
     ["channel_id", "timestamp", "reaction"]⟩,
   ⟨"slack_get_channel_history", ["channel_id", "limit"], ["channel_id"]⟩]

/-- The no-default parameters of the handler a dispatcher branch calls,
by branch name (transcribed from the Python signatures at unified_app.py
lines 351, 359, 368, 382, 390, 402, 410, 446, 457, 472, 483, 500, 511,
536, 550, 564). -/
def handlerRequired (n : String) : List String :=
  if n = "create_repository" then create_repository_req
  else if n = "list_repositories" then list_repositories_req
  else if n = "create_jira_issue" then create_jira_issue_req
  else if n = "list_jira_projects" then []
  else if n = "create_confluence_page" then create_confluence_page_req
  else if n = "list_confluence_spaces" then []
  else if n = "send_slack_message" then send_slack_message_req
  else if n = "upload_file_to_slack" then upload_file_to_slack_req
  else if n = "slack_get_thread_replies" then slack_get_thread_replies_req
  else if n = "slack_get_users" then []
  else if n = "slack_get_user_profile" then slack_get_user_profile_req
  else if n = "slack_list_channels" then []
  else if n = "slack_post_message" then slack_post_message_req
  else if n = "slack_reply_to_thread" then slack_reply_to_thread_req
  else if n = "slack_add_reaction" then slack_add_reaction_req
  else if n = "slack_get_channel_history" then slack_get_channel_history_req
  else []

/-- The keyword-validity test the dispatch branch for `n` applies to the
decoded arguments before the handler body runs (`true` for the two
branches that call their handler without arguments, and for a name with
no branch). -/
def argCheckOf (n : String) (args : ArgDict) : Bool :=
  if n = "create_repository" then
    validKwargs args create_repository_req create_repository_opt
  else if n = "list_repositories" then validKwargs args list_repositories_req []
  else if n = "create_jira_issue" then
    validKwargs args create_jira_issue_req create_jira_issue_opt
  else if n = "create_confluence_page" then
    validKwargs args create_confluence_page_req []
  else if n = "send_slack_message" then validKwargs args send_slack_message_req []
  else if n = "upload_file_to_slack" then validKwargs args upload_file_to_slack_req []
  else if n = "slack_get_thread_replies" then
    validKwargs args slack_get_thread_replies_req []
  else if n = "slack_get_users" then validKwargs args [] slack_get_users_opt
  else if n = "slack_get_user_profile" then
    validKwargs args slack_get_user_profile_req []
  else if n = "slack_list_channels" then validKwargs args [] slack_list_channels_opt
  else if n = "slack_post_message" then validKwargs args slack_post_message_req []
  else if n = "slack_reply_to_thread" then validKwargs args slack_reply_to_thread_req []
  else if n = "slack_add_reaction" then validKwargs args slack_add_reaction_req []
  else if n = "slack_get_channel_history" then
    validKwargs args slack_get_channel_history_req slack_get_channel_history_opt
  else true

end Unified

/-- A generic non-Slack exception used to exercise the theorems on
concrete inputs. -/
def offline : Exc := ⟨false, "offline", ""⟩

namespace App

/-- A world whose chat endpoint answers every prompt with the given
message (used to state how the dispatcher treats a fixed response). -/
def withResponse (w : World) (m : ChatMessage) : World :=
  { w with chat_complete := fun _ => .ok ⟨m⟩ }

/-- A concrete app.py world for evaluating theorems on specific inputs:
listing repositories succeeds, everything else raises. -/
def demoWorld : World where
  chat_complete := fun _ => .error offline
  create_repo := fun _ _ _ => .error offline
  create_issue := fun _ _ _ => .error offline
  get_issues := fun _ => .error offline
  get_repos := fun _ => .ok [⟨"hello-world", some "demo", "https://example.invalid/hw"⟩]
  get_repo := fun _ => .error offline
  read_file := fun _ => .error offline
  create_file := fun _ _ _ => .error offline

/-- Reduction of the dispatcher on a response whose first tool call is
`t`: the result is the outer catch applied to the tool-call path. -/
theorem app_get_ai_response_tool_call (w : World) (jl : String → Except Exc ArgDict)
    (prompt : String) (t : ToolCallStruct) (rest : List ToolCallStruct)
    (content : String)
    (h : w.chat_complete prompt = .ok ⟨⟨some (t :: rest), content⟩⟩) :
    get_ai_response w jl prompt =
      match execToolCall w jl t with
      | .ok s => s
      | .error e => "Error: " ++ e.msg := by
  unfold get_ai_response dispatchBody
  rw [h]
  rfl

end App

namespace Unified

/-- A concrete unified_app.py world for evaluating theorems on specific
inputs: listing repositories succeeds, everything else raises. -/
def demoWorld : World where
  chat_complete := fun _ => .error offline
  create_repo := fun _ _ _ => .error offline
  get_repos := fun _ => .ok [⟨"hello-world", some "demo", "https://example.invalid/hw"⟩]
  jira_create_issue := fun _ _ _ _ => .error offline
  jira_projects := .error offline
  confluence_create_page := fun _ _ _ => .error offline
  confluence_get_all_spaces := .error offline
  conversations_open := fun _ => .error offline
  chat_postMessage := fun _ _ _ => .error offline
  files_upload := fun _ _ => .error offline
  conversations_replies := fun _ _ => .error offline
  users_list := fun _ => .error offline
  users_info := fun _ => .error offline
  conversations_list := fun _ => .error offline
  reactions_add := fun _ _ _ => .error offline
  conversations_history := fun _ _ => .error offline

/-- Reduction of the dispatcher on a response whose first tool call is
`t`: the result is the outer catch applied to the tool-call path. -/
theorem unified_get_ai_response_tool_call (w : World) (jl : String → Except Exc ArgDict)
    (prompt : String) (t : ToolCallStruct) (rest : List ToolCallStruct)
    (content : String)
    (h : w.chat_complete prompt = .ok ⟨⟨some (t :: rest), content⟩⟩) :
    get_ai_response w jl prompt =
      match execToolCall w jl t content with
      | .ok s => s
      | .error e => "Error: " ++ e.msg := by
  unfold get_ai_response dispatchBody
  rw [h]
  rfl

end Unified

/-- C7: for every user input equal, case-insensitively, to one of the
literal tokens `quit`, `exit` or `q`, the CLI loop of either file
terminates on that turn without making any further model call. -/
theorem C7_quit_terminates (wa : App.World) (wu : Unified.World)
    (jla jlu : String → Except Exc ArgDict) (input : String)
    (h : pyLower input ∈ (["quit", "exit", "q"] : List String)) :
    App.mainTurn wa jla input = Turn.quit ∧
    Unified.mainTurn wu jlu input = Turn.quit := by
  constructor
  · unfold App.mainTurn
    rw [if_pos h]
  · unfold Unified.mainTurn
    rw [if_pos h]

/-- Witness for C7 at the concrete input `QUIT`. -/
theorem C7_witness :
    App.mainTurn App.demoWorld (fun _ => .ok []) "QUIT" = Turn.quit ∧
    Unified.mainTurn Unified.demoWorld (fun _ => .ok []) "QUIT" = Turn.quit :=
  C7_quit_terminates App.demoWorld Unified.demoWorld _ _ "QUIT" (by decide)

/-- C5: for every model response carrying no tool-call request (a
`tool_calls` field that is absent or an empty list), either dispatcher
returns the response message's text content unchanged. -/
theorem C5_no_tool_call_returns_content (wa : App.World) (wu : Unified.World)
    (jla jlu : String → Except Exc ArgDict) (prompt content : String)
    (tc : Option (List ToolCallStruct)) (htc : tc = none ∨ tc = some [])
    (ha : wa.chat_complete prompt = .ok ⟨⟨tc, content⟩⟩)
    (hu : wu.chat_complete prompt = .ok ⟨⟨tc, content⟩⟩) :
    App.get_ai_response wa jla prompt = content ∧
    Unified.get_ai_response wu jlu prompt = content := by
  constructor
  · unfold App.get_ai_response App.dispatchBody
    rw [ha]
    rcases htc with rfl | rfl <;> rfl
  · unfold Unified.get_ai_response Unified.dispatchBody
    rw [hu]
    rcases htc with rfl | rfl <;> rfl

/-- Witness for C5 on a concrete plain-text response. -/
theorem C5_witness :
    App.get_ai_response (App.withResponse App.demoWorld ⟨none, "hello"⟩)
      (fun _ => .ok []) "hi" = "hello" ∧
    Unified.get_ai_response (Unified.withResponse Unified.demoWorld ⟨none, "hello"⟩)
      (fun _ => .ok []) "hi" = "hello" :=
  C5_no_tool_call_returns_content _ _ _ _ "hi" "hello" none (Or.inl rfl) rfl rfl

/-- C3: for every model response carrying one or more tool calls, either
dispatcher executes exactly the first call of the list — the returned
string is the outer catch applied to that first call's execution path —
and the trailing calls are ignored: replacing them changes nothing. -/
theorem C3_first_tool_call_only (wa : App.World) (wu : Unified.World)
    (jla jlu : String → Except Exc ArgDict) (prompt : String)
    (t : ToolCallStruct) (rest rest' : List ToolCallStruct) (content : String)
    (ha : wa.chat_complete prompt = .ok ⟨⟨some (t :: rest), content⟩⟩)
    (hu : wu.chat_complete prompt = .ok ⟨⟨some (t :: rest), content⟩⟩) :
    (App.get_ai_response wa jla prompt =
      match App.execToolCall wa jla t with
      | .ok s => s
      | .error e => "Error: " ++ e.msg) ∧
    App.get_ai_response (App.withResponse wa ⟨some (t :: rest), content⟩) jla prompt =
      App.get_ai_response (App.withResponse wa ⟨some (t :: rest'), content⟩) jla prompt ∧
    (Unified.get_ai_response wu jlu prompt =
      match Unified.execToolCall wu jlu t content with
      | .ok s => s
      | .error e => "Error: " ++ e.msg) ∧
    Unified.get_ai_response (Unified.withResponse wu ⟨some (t :: rest), content⟩) jlu
        prompt =
      Unified.get_ai_response (Unified.withResponse wu ⟨some (t :: rest'), content⟩) jlu
        prompt := by
  refine ⟨App.app_get_ai_response_tool_call wa jla prompt t rest content ha, rfl,
    Unified.unified_get_ai_response_tool_call wu jlu prompt t rest content hu, rfl⟩

/-- Witness for C3 on a concrete response carrying two tool calls. -/
theorem C3_witness :
    (App.get_ai_response
        (App.withResponse App.demoWorld
          ⟨some [⟨⟨"list_repositories", "x"⟩⟩, ⟨⟨"create_repository", "y"⟩⟩], "c"⟩)
        (fun _ => .ok [("username", PyVal.str "octocat")]) "hi" =
      match App.execToolCall
          (App.withResponse App.demoWorld
            ⟨some [⟨⟨"list_repositories", "x"⟩⟩, ⟨⟨"create_repository", "y"⟩⟩], "c"⟩)
          (fun _ => .ok [("username", PyVal.str "octocat")]) ⟨⟨"list_repositories", "x"⟩⟩ with
      | .ok s => s
      | .error e => "Error: " ++ e.msg) ∧
    App.get_ai_response
        (App.withResponse
          (App.withResponse App.demoWorld
            ⟨some [⟨⟨"list_repositories", "x"⟩⟩, ⟨⟨"create_repository", "y"⟩⟩], "c"⟩)
          ⟨some [⟨⟨"list_repositories", "x"⟩⟩, ⟨⟨"create_repository", "y"⟩⟩], "c"⟩)
        (fun _ => .ok [("username", PyVal.str "octocat")]) "hi" =
      App.get_ai_response
        (App.withResponse
          (App.withResponse App.demoWorld
            ⟨some [⟨⟨"list_repositories", "x"⟩⟩, ⟨⟨"create_repository", "y"⟩⟩], "c"⟩)
          ⟨some [⟨⟨"list_repositories", "x"⟩⟩], "c"⟩)
        (fun _ => .ok [("username", PyVal.str "octocat")]) "hi" ∧
    (Unified.get_ai_response
        (Unified.withResponse Unified.demoWorld
          ⟨some [⟨⟨"list_repositories", "x"⟩⟩, ⟨⟨"create_repository", "y"⟩⟩], "c"⟩)
        (fun _ => .ok [("username", PyVal.str "octocat")]) "hi" =
      match Unified.execToolCall
          (Unified.withResponse Unified.demoWorld
            ⟨some [⟨⟨"list_repositories", "x"⟩⟩, ⟨⟨"create_repository", "y"⟩⟩], "c"⟩)
          (fun _ => .ok [("username", PyVal.str "octocat")]) ⟨⟨"list_repositories", "x"⟩⟩
          "c" with
      | .ok s => s
      | .error e => "Error: " ++ e.msg) ∧
    Unified.get_ai_response
        (Unified.withResponse
          (Unified.withResponse Unified.demoWorld
            ⟨some [⟨⟨"list_repositories", "x"⟩⟩, ⟨⟨"create_repository", "y"⟩⟩], "c"⟩)
          ⟨some [⟨⟨"list_repositories", "x"⟩⟩, ⟨⟨"create_repository", "y"⟩⟩], "c"⟩)
        (fun _ => .ok [("username", PyVal.str "octocat")]) "hi" =
      Unified.get_ai_response
        (Unified.withResponse
          (Unified.withResponse Unified.demoWorld
            ⟨some [⟨⟨"list_repositories", "x"⟩⟩, ⟨⟨"create_repository", "y"⟩⟩], "c"⟩)
          ⟨some [⟨⟨"list_repositories", "x"⟩⟩], "c"⟩)
        (fun _ => .ok [("username", PyVal.str "octocat")]) "hi" :=
  C3_first_tool_call_only _ _ _ _ "hi" ⟨⟨"list_repositories", "x"⟩⟩
    [⟨⟨"create_repository", "y"⟩⟩] [] "c" rfl rfl

/-- The app.py `list_repositories` handler always returns a string: its
catch-all clause converts every raised exception. -/
theorem App.app_list_repositories_total (g : String → Except Exc (List Repo))
    (u : String) : ∃ s, App.list_repositories g u = .ok s := by
  unfold App.list_repositories pyTryAll
  cases g u <;> exact ⟨_, rfl⟩

/-- The unified_app.py `list_repositories` handler always returns a
string: its catch-all clause converts every raised exception. -/
theorem Unified.unified_list_repositories_total (g : String → Except Exc (List Repo))
    (u : String) : ∃ s, Unified.list_repositories g u = .ok s := by
  unfold Unified.list_repositories pyTryAll
  cases g u <;> exact ⟨_, rfl⟩

/-- C8: a model response requesting `list_repositories` with argument
mapping `username = "octocat"` makes either dispatcher call the
`list_repositories` handler on `octocat` and return that handler's
string result. -/
theorem C8_list_repositories_dispatch (wa : App.World) (wu : Unified.World)
    (jla jlu : String → Except Exc ArgDict) (prompt raw content : String)
    (resta restu : List ToolCallStruct)
    (ha : wa.chat_complete prompt =
      .ok ⟨⟨some (⟨⟨"list_repositories", raw⟩⟩ :: resta), content⟩⟩)
    (hja : jla raw = .ok [("username", PyVal.str "octocat")])
    (hu : wu.chat_complete prompt =
      .ok ⟨⟨some (⟨⟨"list_repositories", raw⟩⟩ :: restu), content⟩⟩)
    (hju : jlu raw = .ok [("username", PyVal.str "octocat")]) :
    (∃ s, App.list_repositories wa.get_repos "octocat" = .ok s ∧
      App.get_ai_response wa jla prompt = s) ∧
    (∃ s, Unified.list_repositories wu.get_repos "octocat" = .ok s ∧
      Unified.get_ai_response wu jlu prompt = s) := by
  constructor
  · obtain ⟨s, hs⟩ := App.app_list_repositories_total wa.get_repos "octocat"
    refine ⟨s, hs, ?_⟩
    rw [App.app_get_ai_response_tool_call wa jla prompt _ resta content ha]
    unfold App.execToolCall
    rw [hja]
    simp [bind, Except.bind, pure, Except.pure, Functor.map, Except.map,
      App.call_list_repositories, validKwargs, lookupArg, argStr, argStrD,
      App.list_repositories_req, hs]
  · obtain ⟨s, hs⟩ := Unified.unified_list_repositories_total wu.get_repos "octocat"
    refine ⟨s, hs, ?_⟩
    rw [Unified.unified_get_ai_response_tool_call wu jlu prompt _ restu content hu]
    unfold Unified.execToolCall
    rw [hju]
    simp [bind, Except.bind, pure, Except.pure, Functor.map, Except.map,
      Unified.call_list_repositories, validKwargs, lookupArg, argStr, argStrD,
      Unified.list_repositories_req, hs]

/-- Witness for C8 on concrete worlds whose repository listing succeeds. -/
theorem C8_witness :
    (∃ s, App.list_repositories
        (App.withResponse App.demoWorld
          ⟨some [⟨⟨"list_repositories", "x"⟩⟩], "c"⟩).get_repos "octocat" = .ok s ∧
      App.get_ai_response
        (App.withResponse App.demoWorld ⟨some [⟨⟨"list_repositories", "x"⟩⟩], "c"⟩)
        (fun _ => .ok [("username", PyVal.str "octocat")]) "hi" = s) ∧
    (∃ s, Unified.list_repositories
        (Unified.withResponse Unified.demoWorld
          ⟨some [⟨⟨"list_repositories", "x"⟩⟩], "c"⟩).get_repos "octocat" = .ok s ∧
      Unified.get_ai_response
        (Unified.withResponse Unified.demoWorld
          ⟨some [⟨⟨"list_repositories", "x"⟩⟩], "c"⟩)
        (fun _ => .ok [("username", PyVal.str "octocat")]) "hi" = s) :=
  C8_list_repositories_dispatch
    (App.withResponse App.demoWorld ⟨some [⟨⟨"list_repositories", "x"⟩⟩], "c"⟩)
    (Unified.withResponse Unified.demoWorld ⟨some [⟨⟨"list_repositories", "x"⟩⟩], "c"⟩)
    (fun _ => .ok [("username", PyVal.str "octocat")])
    (fun _ => .ok [("username", PyVal.str "octocat")])
    "hi" "x" "c" [] [] rfl rfl rfl rfl

/-- C9: a first tool call whose name matches no dispatch branch makes
unified_app.py fall through the `if/elif` chain and return the message
text, while app.py reads the unbound local `result`, raising a
`NameError` that its own catch-all converts to an `Error: ` string. -/
theorem C9_unknown_tool_name (wa : App.World) (wu : Unified.World)
    (jla jlu : String → Except Exc ArgDict) (prompt raw content : String)
    (name : String) (args : ArgDict) (resta restu : List ToolCallStruct)
    (hna : name ∉ App.branchNames) (hnu : name ∉ Unified.branchNames)
    (ha : wa.chat_complete prompt = .ok ⟨⟨some (⟨⟨name, raw⟩⟩ :: resta), content⟩⟩)
    (hja : jla raw = .ok args)
    (hu : wu.chat_complete prompt = .ok ⟨⟨some (⟨⟨name, raw⟩⟩ :: restu), content⟩⟩)
    (hju : jlu raw = .ok args) :
    Unified.get_ai_response wu jlu prompt = content ∧
    App.get_ai_response wa jla prompt = "Error: " ++ resultNameError.msg ∧
    pyStartsWith (App.get_ai_response wa jla prompt) "Error:" = true := by
  simp only [App.branchNames, List.mem_cons, List.mem_singleton, List.not_mem_nil,
    not_or, or_false] at hna
  simp only [Unified.branchNames, List.mem_cons, List.mem_singleton, List.not_mem_nil,
    not_or, or_false] at hnu
  obtain ⟨a1, a2, a3, a4, a5⟩ := hna
  obtain ⟨u1, u2, u3, u4, u5, u6, u7, u8, u9, u10, u11, u12, u13, u14, u15, u16⟩ := hnu
  have happ : App.get_ai_response wa jla prompt = "Error: " ++ resultNameError.msg := by
    rw [App.app_get_ai_response_tool_call wa jla prompt _ resta content ha]
    unfold App.execToolCall
    rw [hja]
    simp [bind, Except.bind, pure, Except.pure, a1, a2, a3, a4, a5]
  refine ⟨?_, happ, ?_⟩
  · rw [Unified.unified_get_ai_response_tool_call wu jlu prompt _ restu content hu]
    unfold Unified.execToolCall
    rw [hju]
    simp [bind, Except.bind, pure, Except.pure, u1, u2, u3, u4, u5, u6, u7, u8,
      u9, u10, u11, u12, u13, u14, u15, u16]
  · rw [happ]
    decide

/-- Witness for C9 at the concrete unknown operation name `frobnicate`. -/
theorem C9_witness :
    Unified.get_ai_response
        (Unified.withResponse Unified.demoWorld ⟨some [⟨⟨"frobnicate", "x"⟩⟩], "ctext"⟩)
        (fun _ => .ok []) "hi" = "ctext" ∧
    App.get_ai_response
        (App.withResponse App.demoWorld ⟨some [⟨⟨"frobnicate", "x"⟩⟩], "ctext"⟩)
        (fun _ => .ok []) "hi" = "Error: " ++ resultNameError.msg ∧
    pyStartsWith
      (App.get_ai_response
        (App.withResponse App.demoWorld ⟨some [⟨⟨"frobnicate", "x"⟩⟩], "ctext"⟩)
        (fun _ => .ok []) "hi") "Error:" = true :=
  C9_unknown_tool_name
    (App.withResponse App.demoWorld ⟨some [⟨⟨"frobnicate", "x"⟩⟩], "ctext"⟩)
    (Unified.withResponse Unified.demoWorld ⟨some [⟨⟨"frobnicate", "x"⟩⟩], "ctext"⟩)
    (fun _ => .ok []) (fun _ => .ok []) "hi" "x" "ctext" "frobnicate" [] [] []
    (by decide) (by decide) rfl rfl rfl rfl

/-- A probe for `users_list` that raises a `SlackApiError` recording the
limit value it was invoked with. -/
def probeUsers : Int → Except Exc (SlackResp (List SlackUser)) :=
  fun l => .error ⟨true, toString l, ""⟩

/-- A probe for `conversations_list` that records the limit value it was
invoked with. -/
def probeChannels : Int → Except Exc (SlackResp (List SlackChannel)) :=
  fun l => .error ⟨true, toString l, ""⟩

/-- A probe for `conversations_history` that records the limit value it
was invoked with. -/
def probeHistory : String → Int → Except Exc (SlackResp (List SlackMsg)) :=
  fun _ l => .error ⟨true, toString l, ""⟩

/-- C10: for every integer limit, `slack_get_users` and
`slack_list_channels` invoke the Slack client at `min(limit, 200)` —
never above 200 — while `slack_get_channel_history` forwards its limit
unclamped; the probes surface the invoked value in the returned string. -/
theorem C10_limit_clamping (limit : Int) (ch : String) :
    min limit 200 ≤ (200 : Int) ∧
    Unified.slack_get_users probeUsers limit =
      .ok ("Error: " ++ toString (min limit 200)) ∧
    Unified.slack_list_channels probeChannels limit =
      .ok ("Error: " ++ toString (min limit 200)) ∧
    Unified.slack_get_channel_history probeHistory ch limit =
      .ok ("Error: " ++ toString limit) := by
  refine ⟨min_le_right _ _, ?_, ?_, ?_⟩ <;> rfl

/-- Keyword binding fails whenever a required parameter is missing from
the argument mapping. -/
theorem validKwargs_false_of_missing (args : ArgDict) (required optional : List String)
    (p : String) (hp : p ∈ required) (h : lookupArg args p = none) :
    validKwargs args required optional = false := by
  have hall : required.all (fun k => (lookupArg args k).isSome) = false := by
    apply List.all_eq_false.mpr
    exact ⟨p, hp, by simp [h]⟩
  unfold validKwargs
  rw [hall, Bool.false_and]

/-- C4: every catalog entry's name matches exactly one dispatch branch,
every parameter its schema declares required is a no-default keyword
parameter of the matching handler's signature, and omitting such a
parameter from the argument mapping makes the branch's keyword binding
fail (so the call raises). -/
theorem C4_catalog_handler_invariant :
    (∀ e ∈ App.toolsCatalog,
      App.branchNames.count e.name = 1 ∧
      ∀ p ∈ e.required, p ∈ App.handlerRequired e.name) ∧
    (∀ e ∈ Unified.toolsCatalog,
      Unified.branchNames.count e.name = 1 ∧
      ∀ p ∈ e.required, p ∈ Unified.handlerRequired e.name) ∧
    (∀ e ∈ App.toolsCatalog, ∀ p ∈ e.required, ∀ args : ArgDict,
      lookupArg args p = none → App.argCheckOf e.name args = false) ∧
    (∀ e ∈ Unified.toolsCatalog, ∀ p ∈ e.required, ∀ args : ArgDict,
      lookupArg args p = none → Unified.argCheckOf e.name args = false) := by
  refine ⟨by decide, by decide, ?_, ?_⟩
  · intro e he p hp args hlook
    fin_cases he <;>
      simp only [App.toolsCatalog, App.argCheckOf] <;>
      simp only [List.mem_cons, List.mem_singleton, List.not_mem_nil] at hp <;>
      exact validKwargs_false_of_missing args _ _ p
        (by simpa [App.create_repository_req, App.list_repositories_req,
          App.create_github_issue_req, App.list_repository_issues_req,
          App.upload_file_req] using hp) hlook
  · intro e he p hp args hlook
    fin_cases he <;>
      simp only [Unified.toolsCatalog, Unified.argCheckOf] <;>
      simp only [List.mem_cons, List.mem_singleton, List.not_mem_nil] at hp <;>
      exact validKwargs_false_of_missing args _ _ p
        (by simpa [Unified.create_repository_req, Unified.list_repositories_req,
          Unified.create_jira_issue_req, Unified.create_confluence_page_req,
          Unified.send_slack_message_req, Unified.upload_file_to_slack_req,
          Unified.slack_get_thread_replies_req, Unified.slack_get_user_profile_req,
          Unified.slack_post_message_req, Unified.slack_reply_to_thread_req,
          Unified.slack_add_reaction_req, Unified.slack_get_channel_history_req]
          using hp) hlook

/-- Witness for C4 at concrete catalog entries of both files. -/
theorem C4_witness :
    App.branchNames.count "create_repository" = 1 ∧
    "name" ∈ App.handlerRequired "create_repository" ∧
    Unified.branchNames.count "slack_reply_to_thread" = 1 ∧
    "text" ∈ Unified.handlerRequired "slack_reply_to_thread" ∧
    App.argCheckOf "create_repository" [] = false ∧
    Unified.argCheckOf "slack_reply_to_thread" [] = false := by
  have h1 := C4_catalog_handler_invariant.1
    ⟨"create_repository", ["name", "description", "private"], ["name"]⟩ (by decide)
  have h2 := C4_catalog_handler_invariant.2.1
    ⟨"slack_reply_to_thread", ["channel_id", "thread_ts", "text"],
      ["channel_id", "thread_ts", "text"]⟩ (by decide)
  have h3 := C4_catalog_handler_invariant.2.2.1
    ⟨"create_repository", ["name", "description", "private"], ["name"]⟩ (by decide)
    "name" (by decide) [] rfl
  have h4 := C4_catalog_handler_invariant.2.2.2
    ⟨"slack_reply_to_thread", ["channel_id", "thread_ts", "text"],
      ["channel_id", "thread_ts", "text"]⟩ (by decide) "text" (by decide) [] rfl
  exact ⟨h1.1, h1.2 "name" (by decide), h2.1, h2.2 "text" (by decide), h3, h4⟩

/-- A string that starts with `a` cannot equal a string `b` that does
not start with `a`. -/
theorem pyStartsWith_ne (t a b : String) (ht : pyStartsWith t a = true)
    (hb : pyStartsWith b a = false) : t ≠ b := by
  intro he
  rw [he] at ht
  exact Bool.noConfusion (ht.symm.trans hb)

/-- Two incomparable patterns cannot both be prefixes of one string. -/
theorem pyStartsWith_false_of (t a b : String) (ha : pyStartsWith t a = true)
    (hab : a.data.isPrefixOf b.data = false)
    (hba : b.data.isPrefixOf a.data = false) : pyStartsWith t b = false := by
  cases hb : pyStartsWith t b
  · rfl
  · exfalso
    have ha2 : a.data <+: t.data := List.isPrefixOf_iff_prefix.mp ha
    have hb2 : b.data <+: t.data := List.isPrefixOf_iff_prefix.mp hb
    rcases List.prefix_or_prefix_of_prefix ha2 hb2 with hh | hh
    · exact Bool.noConfusion ((List.isPrefixOf_iff_prefix.mpr hh).symm.trans hab)
    · exact Bool.noConfusion ((List.isPrefixOf_iff_prefix.mpr hh).symm.trans hba)

/-- Membership in the quit-token list fails under three disequalities. -/
theorem not_mem_quit_of_ne (s : String) (h1 : s ≠ "quit") (h2 : s ≠ "exit")
    (h3 : s ≠ "q") : s ∉ (["quit", "exit", "q"] : List String) := by
  simp [h1, h2, h3]

/-- A false boolean condition is not true. -/
theorem bool_not_true_of_false (b : Bool) (h : b = false) : ¬ b = true := by
  simp [h]

/-- C6: a user input matching one of the five local command shortcuts of
unified_app.py is answered by a local branch — never by the model: the
turn is a `localResp`, and its value does not depend on the chat
endpoint at all. -/
theorem C6_local_shortcuts_skip_model (wu : Unified.World)
    (jl : String → Except Exc ArgDict) (input : String)
    (h : pyLower input = "list channels" ∨
      pyStartsWith (pyLower input) "send message" = true ∨
      pyStartsWith (pyLower input) "reply" = true ∨
      pyStartsWith (pyLower input) "add reaction" = true ∨
      pyStartsWith (pyLower input) "show history" = true) :
    (∃ r, Unified.mainTurn wu jl input = Turn.localResp r) ∧
    ∀ chat chat' : String → Except Exc ChatResponse,
      Unified.mainTurn { wu with chat_complete := chat } jl input =
        Unified.mainTurn { wu with chat_complete := chat' } jl input := by
  rcases h with h | h | h | h | h
  · have hq : pyLower input ∉ (["quit", "exit", "q"] : List String) := by
      rw [h]; decide
    have hred : Unified.mainTurn wu jl input =
        Turn.localResp (Unified.slack_list_channels wu.conversations_list 100) := by
      unfold Unified.mainTurn
      simp only [if_neg hq, if_pos h]
    refine ⟨⟨_, hred⟩, ?_⟩
    intro chat chat'
    unfold Unified.mainTurn
    simp only [if_neg hq, if_pos h]
  · have hq : pyLower input ∉ (["quit", "exit", "q"] : List String) :=
      not_mem_quit_of_ne _ (pyStartsWith_ne _ "send message" _ h (by decide))
        (pyStartsWith_ne _ "send message" _ h (by decide))
        (pyStartsWith_ne _ "send message" _ h (by decide))
    have hlc : pyLower input ≠ "list channels" :=
      pyStartsWith_ne _ "send message" _ h (by decide)
    have hred : Unified.mainTurn wu jl input =
        Turn.localResp (Unified.sendMessageBranch wu input) := by
      unfold Unified.mainTurn
      simp only [if_neg hq, if_neg hlc, if_pos h]
    refine ⟨⟨_, hred⟩, ?_⟩
    intro chat chat'
    unfold Unified.mainTurn
    simp only [if_neg hq, if_neg hlc, if_pos h]
    rfl
  · have hq : pyLower input ∉ (["quit", "exit", "q"] : List String) :=
      not_mem_quit_of_ne _ (pyStartsWith_ne _ "reply" _ h (by decide))
        (pyStartsWith_ne _ "reply" _ h (by decide))
        (pyStartsWith_ne _ "reply" _ h (by decide))
    have hlc : pyLower input ≠ "list channels" :=
      pyStartsWith_ne _ "reply" _ h (by decide)
    have hsm : pyStartsWith (pyLower input) "send message" = false :=
      pyStartsWith_false_of _ "reply" "send message" h (by decide) (by decide)
    have hred : Unified.mainTurn wu jl input =
        Turn.localResp (.ok (Unified.replyBranch wu input)) := by
      unfold Unified.mainTurn
      simp only [if_neg hq, if_neg hlc, if_neg (bool_not_true_of_false _ hsm),
        if_pos h]
    refine ⟨⟨_, hred⟩, ?_⟩
    intro chat chat'
    unfold Unified.mainTurn
    simp only [if_neg hq, if_neg hlc, if_neg (bool_not_true_of_false _ hsm), if_pos h]
    rfl
  · have hq : pyLower input ∉ (["quit", "exit", "q"] : List String) :=
      not_mem_quit_of_ne _ (pyStartsWith_ne _ "add reaction" _ h (by decide))
        (pyStartsWith_ne _ "add reaction" _ h (by decide))
        (pyStartsWith_ne _ "add reaction" _ h (by decide))
    have hlc : pyLower input ≠ "list channels" :=
      pyStartsWith_ne _ "add reaction" _ h (by decide)
    have hsm : pyStartsWith (pyLower input) "send message" = false :=
      pyStartsWith_false_of _ "add reaction" "send message" h (by decide) (by decide)
    have hrp : pyStartsWith (pyLower input) "reply" = false :=
      pyStartsWith_false_of _ "add reaction" "reply" h (by decide) (by decide)
    have hred : Unified.mainTurn wu jl input =
        Turn.localResp (.ok (Unified.addReactionBranch wu input)) := by
      unfold Unified.mainTurn
      simp only [if_neg hq, if_neg hlc, if_neg (bool_not_true_of_false _ hsm),
        if_neg (bool_not_true_of_false _ hrp), if_pos h]
    refine ⟨⟨_, hred⟩, ?_⟩
    intro chat chat'
    unfold Unified.mainTurn
    simp only [if_neg hq, if_neg hlc, if_neg (bool_not_true_of_false _ hsm),
      if_neg (bool_not_true_of_false _ hrp), if_pos h]
    rfl
  · have hq : pyLower input ∉ (["quit", "exit", "q"] : List String) :=
      not_mem_quit_of_ne _ (pyStartsWith_ne _ "show history" _ h (by decide))
        (pyStartsWith_ne _ "show history" _ h (by decide))
        (pyStartsWith_ne _ "show history" _ h (by decide))
    have hlc : pyLower input ≠ "list channels" :=
      pyStartsWith_ne _ "show history" _ h (by decide)
    have hsm : pyStartsWith (pyLower input) "send message" = false :=
      pyStartsWith_false_of _ "show history" "send message" h (by decide) (by decide)
    have hrp : pyStartsWith (pyLower input) "reply" = false :=
      pyStartsWith_false_of _ "show history" "reply" h (by decide) (by decide)
    have har : pyStartsWith (pyLower input) "add reaction" = false :=
      pyStartsWith_false_of _ "show history" "add reaction" h (by decide) (by decide)
    have hred : Unified.mainTurn wu jl input =
        Turn.localResp (.ok (Unified.showHistoryBranch wu input)) := by
      unfold Unified.mainTurn
      simp only [if_neg hq, if_neg hlc, if_neg (bool_not_true_of_false _ hsm),
        if_neg (bool_not_true_of_false _ hrp), if_neg (bool_not_true_of_false _ har),
        if_pos h]
    refine ⟨⟨_, hred⟩, ?_⟩
    intro chat chat'
    unfold Unified.mainTurn
    simp only [if_neg hq, if_neg hlc, if_neg (bool_not_true_of_false _ hsm),
      if_neg (bool_not_true_of_false _ hrp), if_neg (bool_not_true_of_false _ har),
      if_pos h]
    rfl

/-- Witness for C6 at the concrete input `list channels`. -/
theorem C6_witness :
    (∃ r, Unified.mainTurn Unified.demoWorld (fun _ => .ok []) "list channels" =
      Turn.localResp r) ∧
    Unified.mainTurn
        { Unified.demoWorld with chat_complete := fun _ => .error offline }
        (fun _ => .ok []) "list channels" =
      Unified.mainTurn
        { Unified.demoWorld with chat_complete := fun _ => .ok ⟨⟨none, "x"⟩⟩ }
        (fun _ => .ok []) "list channels" := by
  have h := C6_local_shortcuts_skip_model Unified.demoWorld (fun _ => .ok [])
    "list channels" (Or.inl (by decide))
  exact ⟨h.1, h.2 _ _⟩

/-- The exception `json.loads` raises for a payload that is not JSON
(`json.decoder.JSONDecodeError`). -/
def jsonParseError : Exc := ⟨false, "Expecting value: line 1 column 1 (char 0)", ""⟩

/-- Counterexample to C2: both dispatchers catch the JSON-parse
exception inside their own `try/except` and return an `Error: ` string —
the exception never reaches the caller — and the unified dispatcher does
the same for a missing required keyword. -/
theorem C2_counterexample :
    App.get_ai_response
        (App.withResponse App.demoWorld ⟨some [⟨⟨"create_repository", "bad"⟩⟩], "c"⟩)
        (fun _ => .error jsonParseError) "hi" = "Error: " ++ jsonParseError.msg ∧
    Unified.get_ai_response
        (Unified.withResponse Unified.demoWorld ⟨some [⟨⟨"create_repository", "bad"⟩⟩], "c"⟩)
        (fun _ => .error jsonParseError) "hi" = "Error: " ++ jsonParseError.msg ∧
    Unified.get_ai_response
        (Unified.withResponse Unified.demoWorld ⟨some [⟨⟨"create_repository", "empty"⟩⟩], "c"⟩)
        (fun _ => .ok []) "hi" = "Error: " ++ (kwargsError "create_repository").msg ∧
    pyStartsWith
      (Unified.get_ai_response
        (Unified.withResponse Unified.demoWorld ⟨some [⟨⟨"create_repository", "bad"⟩⟩], "c"⟩)
        (fun _ => .error jsonParseError) "hi") "Error:" = true :=
  ⟨rfl, rfl, rfl, by decide⟩

/-- C2 as amended: an exception raised by JSON argument parsing, or by
keyword binding against the matched handler's signature, is caught by
the dispatcher's own outermost `try/except` and converted to the
returned string `Error: <message>`; it does not reach the dispatcher's
caller. -/
theorem C2_amended_dispatcher_catches_argument_errors
    (wa : App.World) (wu : Unified.World)
    (jla jlu : String → Except Exc ArgDict) (prompt raw content name : String)
    (e : Exc) (args : ArgDict) (resta restu : List ToolCallStruct)
    (ha : wa.chat_complete prompt = .ok ⟨⟨some (⟨⟨name, raw⟩⟩ :: resta), content⟩⟩)
    (hu : wu.chat_complete prompt = .ok ⟨⟨some (⟨⟨name, raw⟩⟩ :: restu), content⟩⟩) :
    (jla raw = .error e → App.get_ai_response wa jla prompt = "Error: " ++ e.msg) ∧
    (jlu raw = .error e → Unified.get_ai_response wu jlu prompt = "Error: " ++ e.msg) ∧
    (jla raw = .ok args → name ∈ App.branchNames →
      App.argCheckOf name args = false →
      App.get_ai_response wa jla prompt = "Error: " ++ (kwargsError name).msg) ∧
    (jlu raw = .ok args → name ∈ Unified.branchNames →
      Unified.argCheckOf name args = false →
      Unified.get_ai_response wu jlu prompt = "Error: " ++ (kwargsError name).msg) := by
  refine ⟨?_, ?_, ?_, ?_⟩
  · intro hj
    rw [App.app_get_ai_response_tool_call wa jla prompt _ resta content ha]
    unfold App.execToolCall
    rw [hj]
    rfl
  · intro hj
    rw [Unified.unified_get_ai_response_tool_call wu jlu prompt _ restu content hu]
    unfold Unified.execToolCall
    rw [hj]
    rfl
  · intro hj hmem hchk
    rw [App.app_get_ai_response_tool_call wa jla prompt _ resta content ha]
    unfold App.execToolCall
    rw [hj]
    simp only [App.branchNames, List.mem_cons, List.mem_singleton,
      List.not_mem_nil, or_false] at hmem
    rcases hmem with rfl | rfl | rfl | rfl | rfl <;>
      simp [App.argCheckOf] at hchk <;>
      simp [bind, Except.bind, App.call_upload_file, App.call_create_repository,
        App.call_list_repositories, App.call_create_github_issue,
        App.call_list_repository_issues, hchk]
  · intro hj hmem hchk
    rw [Unified.unified_get_ai_response_tool_call wu jlu prompt _ restu content hu]
    unfold Unified.execToolCall
    rw [hj]
    simp only [Unified.branchNames, List.mem_cons, List.mem_singleton,
      List.not_mem_nil, or_false] at hmem
    rcases hmem with rfl | rfl | rfl | rfl | rfl | rfl | rfl | rfl | rfl | rfl |
      rfl | rfl | rfl | rfl | rfl | rfl <;>
      simp [Unified.argCheckOf] at hchk <;>
      simp [bind, Except.bind, Unified.call_create_repository,
        Unified.call_list_repositories, Unified.call_create_jira_issue,
        Unified.call_create_confluence_page, Unified.call_send_slack_message,
        Unified.call_upload_file_to_slack, Unified.call_slack_get_thread_replies,
        Unified.call_slack_get_users, Unified.call_slack_get_user_profile,
        Unified.call_slack_list_channels, Unified.call_slack_post_message,
        Unified.call_slack_reply_to_thread, Unified.call_slack_add_reaction,
        Unified.call_slack_get_channel_history, hchk]

/-- Witness for the amended C2 at concrete inputs: a malformed payload
and a mapping missing the required `name` keyword. -/
theorem C2_witness :
    App.get_ai_response
        (App.withResponse App.demoWorld ⟨some [⟨⟨"create_repository", "bad"⟩⟩], "c"⟩)
        (fun _ => .error jsonParseError) "hi" = "Error: " ++ jsonParseError.msg ∧
    Unified.get_ai_response
        (Unified.withResponse Unified.demoWorld ⟨some [⟨⟨"create_repository", "bad"⟩⟩], "c"⟩)
        (fun _ => .error jsonParseError) "hi" = "Error: " ++ jsonParseError.msg ∧
    App.get_ai_response
        (App.withResponse App.demoWorld ⟨some [⟨⟨"create_repository", "empty"⟩⟩], "c"⟩)
        (fun _ => .ok []) "hi" = "Error: " ++ (kwargsError "create_repository").msg ∧
    Unified.get_ai_response
        (Unified.withResponse Unified.demoWorld ⟨some [⟨⟨"create_repository", "empty"⟩⟩], "c"⟩)
        (fun _ => .ok []) "hi" = "Error: " ++ (kwargsError "create_repository").msg := by
  have h1 := C2_amended_dispatcher_catches_argument_errors
    (App.withResponse App.demoWorld ⟨some [⟨⟨"create_repository", "bad"⟩⟩], "c"⟩)
    (Unified.withResponse Unified.demoWorld ⟨some [⟨⟨"create_repository", "bad"⟩⟩], "c"⟩)
    (fun _ => .error jsonParseError) (fun _ => .error jsonParseError)
    "hi" "bad" "c" "create_repository" jsonParseError [] [] [] rfl rfl
  have h2 := C2_amended_dispatcher_catches_argument_errors
    (App.withResponse App.demoWorld ⟨some [⟨⟨"create_repository", "empty"⟩⟩], "c"⟩)
    (Unified.withResponse Unified.demoWorld ⟨some [⟨⟨"create_repository", "empty"⟩⟩], "c"⟩)
    (fun _ => .ok []) (fun _ => .ok [])
    "hi" "empty" "c" "create_repository" jsonParseError [] [] [] rfl rfl
  exact ⟨h1.1 rfl, h1.2.1 rfl, h2.2.2.1 rfl (by decide) (by decide),
    h2.2.2.2 rfl (by decide) (by decide)⟩

/-- A prefix of a string is a prefix of any extension of it. -/
theorem pyStartsWith_append (a b p : String) (h : pyStartsWith a p = true) :
    pyStartsWith (a ++ b) p = true := by
  unfold pyStartsWith at h ⊢
  rw [String.data_append]
  exact List.isPrefixOf_iff_prefix.mpr
    ((List.isPrefixOf_iff_prefix.mp h).trans (List.prefix_append _ _))

/-- Counterexample to C1: when its remote call raises, app.py's
`create_repository` returns a string that does not begin with `Error:`
(it begins with `Error creating repository:`), and unified_app.py's
`upload_file_to_slack` propagates a non-`SlackApiError` exception to its
caller instead of returning any string. -/
theorem C1_counterexample :
    App.create_repository (fun _ _ _ => .error offline) "demo" "" false =
      .ok ("Error creating repository: " ++ offline.msg) ∧
    pyStartsWith ("Error creating repository: " ++ offline.msg) "Error:" = false ∧
    Unified.upload_file_to_slack (fun _ _ => .error offline) "gen" "f.py" =
      .error offline :=
  ⟨rfl, by decide, rfl⟩

namespace Unified

/-- The string `send_slack_message` returns for a caught `SlackApiError`
(unified_app.py lines 435-442), named for use in theorem statements. -/
def sendCatchString (e : Exc) : String :=
  if e.slackError = "channel_not_found" then
    "Error: Channel or user not found. Please check the channel ID or user ID."
  else if e.slackError = "not_in_channel" then
    "Error: Bot is not in this channel. Please add the bot to the channel first."
  else "Slack API Error: " ++ e.slackError

/-- The string `slack_post_message` returns for a caught `SlackApiError`
(unified_app.py lines 525-532), named for use in theorem statements. -/
def postCatchString (e : Exc) : String :=
  if e.slackError = "not_in_channel" then
    "Error: Bot is not in this channel. Please add the bot using \x27/invite @your_bot_name\x27"
  else if e.slackError = "channel_not_found" then
    "Error: Channel not found. Please check the channel name."
  else "Slack API Error: " ++ e.slackError

end Unified

/-- C1 as amended: an exception raised by a remote call and caught by
the handler's except clauses never propagates and is converted to a
string beginning with `Error` or `Slack API Error` — app.py's handlers
prefix operation-specific `Error <doing> ...:` strings, unified_app.py's
catch-all handlers produce exactly `Error: <message>`, and its
Slack-specific handlers catch only `SlackApiError`, so any other
exception from their remote calls propagates to the caller. -/
theorem C1_amended_handler_errors (e : Exc) :
    (∀ cr n d p, cr n d p = .error e →
      App.create_repository cr n d p =
        .ok ("Error creating repository: " ++ e.msg) ∧
      pyStartsWith ("Error creating repository: " ++ e.msg) "Error" = true) ∧
    (∀ ci rn t b, ci rn t b = .error e →
      App.create_github_issue ci rn t b = .ok ("Error creating issue: " ++ e.msg) ∧
      pyStartsWith ("Error creating issue: " ++ e.msg) "Error" = true) ∧
    (∀ gi rn, gi rn = .error e →
      App.list_repository_issues gi rn = .ok ("Error listing issues: " ++ e.msg) ∧
      pyStartsWith ("Error listing issues: " ++ e.msg) "Error" = true) ∧
    (∀ gr u, gr u = .error e →
      App.list_repositories gr u = .ok ("Error listing repositories: " ++ e.msg) ∧
      pyStartsWith ("Error listing repositories: " ++ e.msg) "Error" = true) ∧
    (∀ grp rf cf rn fp cm, grp rn = .error e →
      App.upload_file grp rf cf rn fp cm = .ok ("Error uploading file: " ++ e.msg) ∧
      pyStartsWith ("Error uploading file: " ++ e.msg) "Error" = true) ∧
    (∀ grp rf cf rn fp cm, grp rn = .ok () → rf fp = .error e →
      App.upload_file grp rf cf rn fp cm = .ok ("Error uploading file: " ++ e.msg)) ∧
    (∀ grp rf cf rn fp cm fc, grp rn = .ok () → rf fp = .ok fc →
      cf (pyBasename fp) cm fc = .error e →
      App.upload_file grp rf cf rn fp cm = .ok ("Error uploading file: " ++ e.msg)) ∧
    (∀ cr n d p, cr n d p = .error e →
      Unified.create_repository cr n d p = .ok ("Error: " ++ e.msg)) ∧
    (∀ gr u, gr u = .error e →
      Unified.list_repositories gr u = .ok ("Error: " ++ e.msg)) ∧
    (∀ jci pk sm d it, jci pk sm d it = .error e →
      Unified.create_jira_issue jci pk sm d it = .ok ("Error: " ++ e.msg)) ∧
    (∀ jp : Except Exc (List JiraProject), jp = .error e →
      Unified.list_jira_projects jp = .ok ("Error: " ++ e.msg)) ∧
    (∀ ccp sk t c, ccp sk t c = .error e →
      Unified.create_confluence_page ccp sk t c = .ok ("Error: " ++ e.msg)) ∧
    (∀ gas : Except Exc SpacesResp, gas = .error e →
      Unified.list_confluence_spaces gas = .ok ("Error: " ++ e.msg)) ∧
    pyStartsWith ("Error: " ++ e.msg) "Error:" = true ∧
    (∀ co pm ch txt, pyStartsWith ch "D" = true → co ch = .error e →
      Unified.send_slack_message co pm ch txt =
        .ok (if e.isSlackApiError then Unified.sendCatchString e
          else "Error: " ++ e.msg)) ∧
    (∀ co pm ch txt, pyStartsWith ch "D" = false → pm ch txt = .error e →
      Unified.send_slack_message co pm ch txt =
        .ok (if e.isSlackApiError then Unified.sendCatchString e
          else "Error: " ++ e.msg)) ∧
    (∀ co pm ch txt er cid, pyStartsWith ch "D" = true → co ch = .ok ⟨true, er, cid⟩ →
      pm cid txt = .error e →
      Unified.send_slack_message co pm ch txt =
        .ok (if e.isSlackApiError then Unified.sendCatchString e
          else "Error: " ++ e.msg)) ∧
    (pyStartsWith (Unified.sendCatchString e) "Error" ||
      pyStartsWith (Unified.sendCatchString e) "Slack API Error") = true ∧
    (∀ fu c f, fu c f = .error e →
      Unified.upload_file_to_slack fu c f =
        if e.isSlackApiError then .ok ("Error: " ++ e.msg) else .error e) ∧
    (∀ crp c t, crp c t = .error e →
      Unified.slack_get_thread_replies crp c t =
        if e.isSlackApiError then .ok ("Error: " ++ e.msg) else .error e) ∧
    (∀ ul lim, ul (min lim 200) = .error e →
      Unified.slack_get_users ul lim =
        if e.isSlackApiError then .ok ("Error: " ++ e.msg) else .error e) ∧
    (∀ ui uid, ui uid = .error e →
      Unified.slack_get_user_profile ui uid =
        if e.isSlackApiError then .ok ("Error: " ++ e.msg) else .error e) ∧
    (∀ cl lim, cl (min lim 200) = .error e →
      Unified.slack_list_channels cl lim =
        if e.isSlackApiError then .ok ("Error: " ++ e.msg) else .error e) ∧
    (∀ pm cid txt,
      pm (if pyStartsWith cid "C" then cid else cid.dropWhile (fun c => c = '#')) txt =
        .error e →
      Unified.slack_post_message pm cid txt =
        .ok (if e.isSlackApiError then Unified.postCatchString e
          else "Error: " ++ e.msg)) ∧
    (pyStartsWith (Unified.postCatchString e) "Error" ||
      pyStartsWith (Unified.postCatchString e) "Slack API Error") = true ∧
    (∀ pmt cid ts txt, pmt cid ts txt = .error e →
      Unified.slack_reply_to_thread pmt cid ts txt =
        if e.isSlackApiError then .ok ("Error: " ++ e.msg) else .error e) ∧
    (∀ ra cid ts rc, ra cid ts rc = .error e →
      Unified.slack_add_reaction ra cid ts rc =
        if e.isSlackApiError then .ok ("Error: " ++ e.msg) else .error e) ∧
    (∀ chh cid lim, chh cid lim = .error e →
      Unified.slack_get_channel_history chh cid lim =
        if e.isSlackApiError then .ok ("Error: " ++ e.msg) else .error e) := by
  refine ⟨?_, ?_, ?_, ?_, ?_, ?_, ?_, ?_, ?_, ?_, ?_, ?_, ?_, ?_, ?_, ?_, ?_, ?_,
    ?_, ?_, ?_, ?_, ?_, ?_, ?_, ?_, ?_, ?_⟩
  · intro cr n d p h
    refine ⟨?_, pyStartsWith_append _ _ _ (by decide)⟩
    unfold App.create_repository pyTryAll
    rw [h]
    rfl
  · intro ci rn t b h
    refine ⟨?_, pyStartsWith_append _ _ _ (by decide)⟩
    unfold App.create_github_issue pyTryAll
    rw [h]
    rfl
  · intro gi rn h
    refine ⟨?_, pyStartsWith_append _ _ _ (by decide)⟩
    unfold App.list_repository_issues pyTryAll
    rw [h]
    rfl
  · intro gr u h
    refine ⟨?_, pyStartsWith_append _ _ _ (by decide)⟩
    unfold App.list_repositories pyTryAll
    rw [h]
    rfl
  · intro grp rf cf rn fp cm h
    refine ⟨?_, pyStartsWith_append _ _ _ (by decide)⟩
    unfold App.upload_file pyTryAll
    rw [h]
    rfl
  · intro grp rf cf rn fp cm h1 h2
    unfold App.upload_file pyTryAll
    rw [h1]
    simp [bind, Except.bind, h2]
  · intro grp rf cf rn fp cm fc h1 h2 h3
    unfold App.upload_file pyTryAll
    rw [h1]
    simp [bind, Except.bind, h2, h3]
  · intro cr n d p h
    unfold Unified.create_repository pyTryAll
    rw [h]
    rfl
  · intro gr u h
    unfold Unified.list_repositories pyTryAll
    rw [h]
    rfl
  · intro jci pk sm d it h
    unfold Unified.create_jira_issue pyTryAll
    rw [h]
    rfl
  · intro jp h
    unfold Unified.list_jira_projects pyTryAll
    rw [h]
    rfl
  · intro ccp sk t c h
    unfold Unified.create_confluence_page pyTryAll
    rw [h]
    rfl
  · intro gas h
    unfold Unified.list_confluence_spaces pyTryAll
    rw [h]
    rfl
  · exact pyStartsWith_append "Error: " e.msg "Error:" (by decide)
  · intro co pm ch txt hD hco
    cases hb : e.isSlackApiError <;>
      simp [Unified.send_slack_message, pyTrySlackAll, Unified.sendCatchString,
        hD, hco, hb, bind, Except.bind, pure, Except.pure]
  · intro co pm ch txt hD hpost
    cases hb : e.isSlackApiError <;>
      simp [Unified.send_slack_message, pyTrySlackAll, Unified.sendCatchString,
        hD, hpost, hb, bind, Except.bind, pure, Except.pure]
  · intro co pm ch txt er cid hD hco hpost
    cases hb : e.isSlackApiError <;>
      simp [Unified.send_slack_message, pyTrySlackAll, Unified.sendCatchString,
        hD, hco, hpost, hb, bind, Except.bind, pure, Except.pure]
  · unfold Unified.sendCatchString
    split_ifs <;>
      first
        | decide
        | simp [pyStartsWith_append "Slack API Error: " e.slackError
            "Slack API Error" (by decide)]
  · intro fu c f h
    unfold Unified.upload_file_to_slack pyTrySlack
    rw [h]
    rfl
  · intro crp c t h
    unfold Unified.slack_get_thread_replies pyTrySlack
    rw [h]
    rfl
  · intro ul lim h
    unfold Unified.slack_get_users pyTrySlack
    rw [h]
    rfl
  · intro ui uid h
    unfold Unified.slack_get_user_profile pyTrySlack
    rw [h]
    rfl
  · intro cl lim h
    unfold Unified.slack_list_channels pyTrySlack
    rw [h]
    rfl
  · intro pm cid txt h
    cases hb : e.isSlackApiError <;>
      simp [Unified.slack_post_message, pyTrySlackAll, Unified.postCatchString,
        h, hb, bind, Except.bind]
  · unfold Unified.postCatchString
    split_ifs <;>
      first
        | decide
        | simp [pyStartsWith_append "Slack API Error: " e.slackError
            "Slack API Error" (by decide)]
  · intro pmt cid ts txt h
    unfold Unified.slack_reply_to_thread pyTrySlack
    rw [h]
    rfl
  · intro ra cid ts rc h
    unfold Unified.slack_add_reaction pyTrySlack
    rw [h]
    rfl
  · intro chh cid lim h
    unfold Unified.slack_get_channel_history pyTrySlack
    rw [h]
    rfl

/-- A concrete `SlackApiError` used to exercise the theorems. -/
def slackBoom : Exc := ⟨true, "slack api failure", "ratelimited"⟩

/-- Witness for the amended C1: a caught exception in app.py's
`create_repository`, a caught `SlackApiError` in `slack_get_users`, and
a propagated generic exception in `slack_get_users`. -/
theorem C1_witness :
    App.create_repository (fun _ _ _ => Except.error offline) "demo" "" false =
      .ok ("Error creating repository: " ++ offline.msg) ∧
    pyStartsWith ("Error creating repository: " ++ offline.msg) "Error" = true ∧
    Unified.slack_get_users (fun _ => Except.error slackBoom) 5 =
      (if slackBoom.isSlackApiError then Except.ok ("Error: " ++ slackBoom.msg)
        else Except.error slackBoom) ∧
    Unified.slack_get_users (fun _ => Except.error offline) 5 =
      (if offline.isSlackApiError then Except.ok ("Error: " ++ offline.msg)
        else Except.error offline) := by
  have h1 := (C1_amended_handler_errors offline).1 (fun _ _ _ => Except.error offline)
    "demo" "" false rfl
  obtain ⟨-, -, -, -, -, -, -, -, -, -, -, -, -, -, -, -, -, -, -, -, hgu, -⟩ :=
    C1_amended_handler_errors slackBoom
  obtain ⟨-, -, -, -, -, -, -, -, -, -, -, -, -, -, -, -, -, -, -, -, hgu2, -⟩ :=
    C1_amended_handler_errors offline
  exact ⟨h1.1, h1.2, hgu (fun _ => Except.error slackBoom) 5 rfl,
    hgu2 (fun _ => Except.error offline) 5 rfl⟩
